import Mathlib

/-!
Shallow embedding of `vrt_writer/writer.py` (the `VRTWriter` class): a builder
for GDAL VRT XML documents.  The in-memory document `self.vrt` is a Python
dict whose keys are element/attribute names and whose values are attribute
values, nested dicts, or lists of dicts (for repeatable elements).  We model
Python values by the inductive `PyVal` and dicts by ordered association lists
with string keys (all dict keys occurring in the writer are strings).
-/

set_option maxHeartbeats 1000000

namespace VRT

/-- Python values as they occur in the writer's document and arguments.
Floats are modelled by rationals (the writer never computes with them, it
only stores and compares them). -/
inductive PyVal where
  | vnone
  | vbool (b : Bool)
  | vint (n : Int)
  | vfloat (q : Rat)
  | vstr (s : String)
  | vlist (xs : List PyVal)
  | vdict (xs : List (String × PyVal))

/-- An ordered Python dict with string keys. -/
abbrev Dict := List (String × PyVal)

/-- Python truthiness (`bool(x)`): `None`, `False`, zero, empty string /
list / dict are falsy, everything else truthy. -/
def pyTruthy : PyVal → Bool
  | .vnone => false
  | .vbool b => b
  | .vint n => n != 0
  | .vfloat q => q != 0
  | .vstr s => s != ""
  | .vlist xs => !xs.isEmpty
  | .vdict xs => !xs.isEmpty

/-- Numeric view used by Python `==` (`True == 1 == 1.0`). -/
def pyNum? : PyVal → Option Rat
  | .vbool b => some (if b then 1 else 0)
  | .vint n => some (n : Rat)
  | .vfloat q => some q
  | _ => none

mutual

/-- Python equality `==` on the values occurring in the writer: numeric
types compare by value, strings by content, lists elementwise, dicts by
key lookup (order independent). -/
def pyEq : PyVal → PyVal → Bool
  | .vnone, .vnone => true
  | .vstr a, .vstr b => a == b
  | .vlist xs, .vlist ys => pyEqList xs ys
  | .vdict xs, .vdict ys => xs.length == ys.length && pyEqDict xs ys
  | a, b =>
      match pyNum? a, pyNum? b with
      | some x, some y => x == y
      | _, _ => false

def pyEqList : List PyVal → List PyVal → Bool
  | [], [] => true
  | x :: xs, y :: ys => pyEq x y && pyEqList xs ys
  | _, _ => false

/-- Each key of the first dict must be present in the second with an equal
value (combined with the length check this is Python dict equality, the
dicts built by the writer having no duplicate keys). -/
def pyEqDict : Dict → Dict → Bool
  | [], _ => true
  | (k, v) :: xs, ys =>
      (match ys.find? (fun p => p.1 == k) with
       | some p => pyEq v p.2
       | none => false)
      && pyEqDict xs ys

end

/-- Python `x in xs` (membership via `==`). -/
def pyMem (k : PyVal) (vs : List PyVal) : Bool :=
  vs.any (fun v => pyEq k v)

/-- `d[k]` as an option (`d.get(k)`); the writer only reads keys it has
itself written, so the `KeyError` case is unreachable in its flows. -/
def dictGet : Dict → String → Option PyVal
  | [], _ => none
  | p :: d, k => if p.1 = k then some p.2 else dictGet d k

/-- `k in d` for a dict. -/
def hasKey (d : Dict) (k : String) : Bool :=
  (dictGet d k).isSome

/-- Python `d[k] = v`: replace the value in place if the key is present
(its position is kept), otherwise append the new pair at the end (dict
keys are unique, so replacing the first occurrence is dict assignment). -/
def setKey : Dict → String → PyVal → Dict
  | [], k, v => [(k, v)]
  | p :: d, k, v => if p.1 = k then (k, v) :: d else p :: setKey d k v

/-- Python `d.update(u)` (also the semantics of a `{**d, **u}` literal):
set each pair of `u` in order. -/
def dictUpdate (d u : Dict) : Dict :=
  u.foldl (fun acc p => setKey acc p.1 p.2) d

/-- `d.values()`. -/
def dictValues (d : Dict) : List PyVal :=
  d.map (fun p => p.2)

/-- `itertools.groupby(xs, key)`: maximal runs of consecutive elements whose
keys compare equal under Python `==`; each group is returned as
(key of its first element, first element, remaining elements). -/
def groupby (f : PyVal → PyVal) : List PyVal → List (PyVal × PyVal × List PyVal)
  | [] => []
  | x :: xs =>
      match groupby f xs with
      | [] => [(f x, x, [])]
      | (k, h, t) :: rest =>
          if pyEq (f x) k then (f x, x, h :: t) :: rest
          else (f x, x, []) :: (k, h, t) :: rest

/-- Exceptions raised by the writer's methods. -/
inductive PyErr where
  | valueError (msg : String)
  | keyError (key : String)
  | stopIteration
  | typeError
  | indexError
  | attributeError
  deriving Repr, DecidableEq

/-- Result of a mutating writer method: the document state when the call
returns or raises, plus the raised exception if any. -/
abbrev AddResult := Dict × Option PyErr

/-- `isinstance(x, str)`. -/
def isStr : PyVal → Bool
  | .vstr _ => true
  | _ => false

/-- The string carried by a `vstr` (only read where `isStr` holds). -/
def asStr : PyVal → String
  | .vstr s => s
  | _ => ""

/-- `isinstance(x, int)`: Python `bool` is a subclass of `int`. -/
def isInstInt : PyVal → Bool
  | .vint _ => true
  | .vbool _ => true
  | _ => false

/-- `isinstance(x, (int, float, str))`. -/
def isIntFloatStr : PyVal → Bool
  | .vint _ => true
  | .vbool _ => true
  | .vfloat _ => true
  | .vstr _ => true
  | _ => false

/-- `float(x)` for an `int`-instance `x`. -/
def pyFloatOfInt : PyVal → Rat
  | .vint n => (n : Rat)
  | .vbool b => if b then 1 else 0
  | _ => 0

/-- `isinstance(x, collections.abc.Sequence)`: lists, tuples and strings are
sequences, dicts and scalars are not (lists model both lists and tuples). -/
def pyIsSequence : PyVal → Bool
  | .vlist _ => true
  | .vstr _ => true
  | _ => false

/-- `len(x)` for sequences and dicts, `none` for objects without a length
(where Python raises `TypeError`). -/
def pyLen : PyVal → Option Nat
  | .vlist xs => some xs.length
  | .vstr s => some s.length
  | .vdict xs => some xs.length
  | _ => none

/-- Iterating a Python value: a list yields its items, a string its
characters, a dict its keys; other values are not iterable (`none`). -/
def pyIterElems : PyVal → Option (List PyVal)
  | .vlist xs => some xs
  | .vstr s => some (s.toList.map (fun c => .vstr (String.mk [c])))
  | .vdict xs => some (xs.map (fun p => .vstr p.1))
  | _ => none

/-- `a or b`. -/
def pyOr (a b : PyVal) : PyVal :=
  if pyTruthy a then a else b

/-- `str(x)`.  Exact for `None`/`bool`/`int`/`str` (the shapes the writer's
callers pass for the fields it stringifies); the textual form of floats and
containers is approximated by a deterministic rendering, which no statement
below depends on. -/
def pyStr : PyVal → String
  | .vnone => "None"
  | .vbool b => if b then "True" else "False"
  | .vint n => toString n
  | .vfloat q => toString q.num ++ (if q.den = 1 then ".0" else "/" ++ toString q.den)
  | .vstr s => s
  | .vlist _ => "<list>"
  | .vdict _ => "<dict>"

/-- `saxutils.escape(s, entities)` as called by `writer.escape`: replaces
`&`, then `>`, then `<`, then the two extra entities `'` and `"`. -/
def escape (s : String) : String :=
  ((((s.replace "&" "&amp;").replace ">" "&gt;").replace "<" "&lt;").replace
      "'" "&apos;").replace "\"" "&quot;"

/-- `VRTWriter.VRTDATASET_SUBCLASSES`. -/
def VRTDATASET_SUBCLASSES : List PyVal :=
  [.vstr "VRTWarpedDataset", .vstr "VRTPansharpenedDataset"]

/-- `VRTWriter.VRTRASTERBAND_SUBCLASSES`. -/
def VRTRASTERBAND_SUBCLASSES : List PyVal :=
  [.vstr "VRTRawRasterBand", .vstr "VRTDerivedRasterBand"]

/-- `VRTWriter.REPEATABLE_ELEMENTS`. -/
def REPEATABLE_ELEMENTS : List String :=
  ["Metadata", "VRTRasterBand", "Overview", "SimpleSource"]

/-- `VRTWriter.VRTRASTERBAND_COLOR_INTERP`. -/
def VRTRASTERBAND_COLOR_INTERP : List PyVal :=
  [.vstr "Gray", .vstr "Palette", .vstr "Red", .vstr "Green", .vstr "Blue",
   .vstr "Alpha", .vstr "Hue", .vstr "Saturation", .vstr "Lightness",
   .vstr "Cyan", .vstr "Magenta", .vstr "Yellow", .vstr "Black",
   .vstr "Unknown"]

/-- `VRTWriter.VRTRASTERBAND_PIX_FUNC`. -/
def VRTRASTERBAND_PIX_FUNC : List PyVal :=
  [.vstr "real", .vstr "imag", .vstr "complex", .vstr "mod", .vstr "phase",
   .vstr "conj", .vstr "sum", .vstr "diff", .vstr "mul", .vstr "cmul",
   .vstr "inv", .vstr "intensity", .vstr "sqrt", .vstr "log10", .vstr "dB",
   .vstr "dB2amp", .vstr "dB2pow"]

/-- `VRTWriter.REPEATABLE_ELEMENTS_KEY_FUNC[element](d)`: the merge-key
function of each repeatable element kind, reading one field of the entry
(`@domain`, `@band`, `SourceFilename` or `SourceBand`). -/
def repeatKeyFunc (element : String) (d : PyVal) : PyVal :=
  let get (k : String) : PyVal :=
    match d with
    | .vdict xs => (dictGet xs k).getD .vnone
    | _ => .vnone
  if element == "Metadata" then get "@domain"
  else if element == "VRTRasterBand" then get "@band"
  else if element == "Overview" then get "SourceFilename"
  else get "SourceBand"

/-- `VRTWriter.update_element(element, mapping, optional_mapping, parent)`
acting on the dict `node` that `parent` resolves to (the document root or a
band entry).  Repeatable elements are stored as lists and merged by the
`groupby` scan of the source; other elements are stored as a single dict,
and `VRTDataset` merges its attributes into the node itself. -/
def updateElement (node : Dict) (element : String)
    (mapping optionalMapping : Dict) : Dict :=
  let opt := optionalMapping.filter (fun p => pyTruthy p.2)
  let newEntry : Dict := dictUpdate mapping opt
  if REPEATABLE_ELEMENTS.contains element then
    let d : List PyVal :=
      match dictGet node element with
      | some (.vlist xs) =>
          let n := xs.length
          let groups := groupby (repeatKeyFunc element) xs
          let d0 := groups.map (fun g =>
            if pyMem g.1 (dictValues mapping) then PyVal.vdict newEntry
            else g.2.1)
          let touched := groups.any (fun g => pyMem g.1 (dictValues mapping))
          if d0.length == n && !touched then d0 ++ [PyVal.vdict newEntry]
          else d0
      | _ => [PyVal.vdict newEntry]
    setKey node element (.vlist d)
  else
    if element == "VRTDataset" then dictUpdate node newEntry
    else setKey node element (.vdict newEntry)

/-- The `@band` attribute of a band entry as read by the lookup lambdas
(`d["@band"]`; entries created by the writer always carry it). -/
def bandAttr (d : PyVal) : PyVal :=
  match d with
  | .vdict xs => (dictGet xs "@band").getD .vnone
  | _ => .vnone

/-- `VRTWriter.get_band_element(band)`, returning the position of the band
entry instead of a reference to it: `next(filter(...))` raises
`StopIteration` when no entry matches, and reading `self.vrt["VRTRasterBand"]`
raises `KeyError` when no band was ever added.  (The `if not element` check
of the source can never fire: a matched entry is a non-empty dict.) -/
def get_band_element (vrt : Dict) (band : PyVal) : Except PyErr Nat :=
  match dictGet vrt "VRTRasterBand" with
  | none => .error (.keyError "VRTRasterBand")
  | some (.vlist xs) =>
      match xs.findIdx? (fun d => pyEq (bandAttr d) band) with
      | some i => .ok i
      | none => .error .stopIteration
  | some _ => .error .typeError

/-- Mutation of a band entry through the `parent` reference handed out by
`get_band_element`: the entry at position `i` of the `VRTRasterBand` list is
updated in place (its position among the siblings is kept). -/
def updateBandChild (vrt : Dict) (i : Nat) (element : String)
    (mapping optionalMapping : Dict) : Dict :=
  match dictGet vrt "VRTRasterBand" with
  | some (.vlist xs) =>
      match xs.get? i with
      | some (.vdict e) =>
          setKey vrt "VRTRasterBand"
            (.vlist (xs.set i (.vdict (updateElement e element mapping optionalMapping))))
      | _ => vrt
  | _ => vrt

/-- `x is None`. -/
def isNone : PyVal → Bool
  | .vnone => true
  | _ => false

/-- `VRTWriter.add_vrtdataset(xsize, ysize, subclass)`. -/
def add_vrtdataset (vrt : Dict) (xsize ysize subclass : PyVal) : AddResult :=
  if !isNone subclass && !pyMem subclass VRTDATASET_SUBCLASSES then
    (vrt, some (.valueError
      ("Invalid subclass " ++ pyStr subclass ++ " for VRTDataset element.")))
  else
    (updateElement vrt "VRTDataset"
      [("@rasterXSize", xsize), ("@rasterYSize", ysize)]
      [("@subClass", subclass)], none)

/-- Modelled from the spec: the external spatial-reference object
(`osr.SpatialReference`), of which the writer only uses the internal
validity check `Validate()`, the textual export `ExportToWkt()` and,
for ground control points, the axis-mapping accessor (guarded by
`hasattr`). -/
structure SRSObj where
  validateResult : Int
  exportToWkt : String
  hasGetDataAxisToSRSAxisMapping : Bool
  getDataAxisToSRSAxisMapping : List PyVal

/-- Modelled from the spec: `constants.VALID_SRS` (the module
`vrt_writer/constants.py` is not among the sources), the success code
against which `srs.Validate()` is compared. -/
def VALID_SRS : Int := 0

/-- `VRTWriter.add_srs(srs, wkt, user_input, axis_mapping)`.  The local
variable `wkt` is reassigned to the escaped text by the first two branches
and left untouched by the `user_input` branch. -/
def add_srs (vrt : Dict) (srs : Option SRSObj)
    (wkt user_input axis_mapping : PyVal) : AddResult :=
  let finish (wktV : PyVal) : AddResult :=
    if pyTruthy axis_mapping && !pyIsSequence axis_mapping then
      (vrt, some (.valueError
        "axis_mapping should sequence of values mapping the axis order of CRS to axis order of coordinate transform metadata."))
    else
      (updateElement vrt "SRS" [("$", pyOr wktV user_input)]
        [("@dataAxisToSRSAxisMapping", axis_mapping)], none)
  match srs with
  | some o =>
      if o.validateResult != VALID_SRS then
        (vrt, some (.valueError "srs is not a valid SpatialReference object."))
      else finish (.vstr (escape o.exportToWkt))
  | none =>
      if pyTruthy wkt && isStr wkt then finish (.vstr (escape (asStr wkt)))
      else if pyTruthy user_input && isStr user_input then finish wkt
      else
        (vrt, some (.valueError
          "Invalid use of input arguments. One of srs, wkt, or user_input should be used."))

/-- `VRTWriter.add_geotransform(geotransform)`. -/
def add_geotransform (vrt : Dict) (geotransform : PyVal) : AddResult :=
  if !pyIsSequence geotransform || pyLen geotransform != some 6 then
    (vrt, some (.valueError "geotransform must be a six element sequence of values."))
  else
    (updateElement vrt "GeoTransform"
      [("$", .vstr (String.intercalate ", "
        (((pyIterElems geotransform).getD []).map pyStr)))] [], none)

/-- Modelled from the spec: the external `gdal.GCP` object, of which the
writer only reads the attributes it copies into the element. -/
structure GCP where
  Id : PyVal
  Info : PyVal
  GCPPixel : PyVal
  GCPLine : PyVal
  GCPX : PyVal
  GCPY : PyVal
  GCPZ : PyVal

/-- `VRTWriter.add_gcps(gcps, srs)`.  For an actual list of GCP objects the
first check (`not isinstance(gcps, Sequence) and not isinstance(gcps[0],
gdal.GCP)`) can never fire, its first conjunct being false. -/
def add_gcps (vrt : Dict) (gcps : List GCP) (srs : Option SRSObj) : AddResult :=
  match srs with
  | some o =>
      if o.validateResult != VALID_SRS then
        (vrt, some (.valueError "srs is not a valid SpatialReference object."))
      else
        let wkt := escape o.exportToWkt
        let axis_mapping : PyVal :=
          if !o.hasGetDataAxisToSRSAxisMapping then .vnone
          else .vstr (String.intercalate ","
            (o.getDataAxisToSRSAxisMapping.map pyStr))
        let sub_element : Dict :=
          [("GCP", .vlist (gcps.map (fun g => .vdict
            [("@Id", g.Id), ("@Info", g.Info), ("@Pixel", g.GCPPixel),
             ("@Line", g.GCPLine), ("@X", g.GCPX), ("@Y", g.GCPY),
             ("@Z", g.GCPZ)])))]
        (updateElement vrt "GCPList" sub_element
          [("@Projection", .vstr wkt),
           ("@dataAxisToSRSAxisMapping", axis_mapping)], none)
  | none =>
      (vrt, some (.valueError "srs is not a valid SpatialReference object."))

/-- The `sub_element` built by `add_metadata`: the `MDI` list is created
first, the `@domain` attribute added second, then the list filled from the
mapping's items. -/
def metadataSubElement (metadata : Dict) (domain : PyVal) : Dict :=
  [("MDI", .vlist (metadata.map (fun p => .vdict [("@key", .vstr p.1), ("$", p.2)]))),
   ("@domain", if !pyTruthy domain then .vstr "" else domain)]

/-- `VRTWriter.add_metadata(metadata, domain, band)`. -/
def add_metadata (vrt : Dict) (metadata domain band : PyVal) : AddResult :=
  match metadata with
  | .vdict m =>
      if pyTruthy domain && !isStr domain then
        (vrt, some (.valueError "domain must be a string representing metadata domain"))
      else
        let parent : Except PyErr (Option Nat) :=
          if pyTruthy band then
            match dictGet vrt "VRTRasterBand" with
            | none => .error (.keyError "VRTRasterBand")
            | some (.vlist xs) =>
                if (xs.filter (fun r => pyEq (bandAttr r) band)).length == 1 then
                  .ok (xs.findIdx? (fun r => pyEq (bandAttr r) band))
                else
                  .error (.valueError
                    ("Could not add metadata to band " ++ pyStr band ++ "."))
            | some _ => .error .typeError
          else .ok none
        match parent with
        | .error e => (vrt, some e)
        | .ok none =>
            (updateElement vrt "Metadata" (metadataSubElement m domain) [], none)
        | .ok (some i) =>
            (updateBandChild vrt i "Metadata" (metadataSubElement m domain) [], none)
  | _ => (vrt, some (.valueError "metadata must be a mapping of key value pairs"))

/-- `VRTWriter.add_vrtrasterband(band, dtype, subclass)`. -/
def add_vrtrasterband (vrt : Dict) (band dtype subclass : PyVal) : AddResult :=
  if !isNone subclass && !pyMem subclass VRTRASTERBAND_SUBCLASSES then
    (vrt, some (.valueError
      ("Invalid subclass " ++ pyStr subclass ++ " for VRTRasterBand element.")))
  else
    (updateElement vrt "VRTRasterBand"
      [("@band", band), ("@dataType", dtype)] [("@subClass", subclass)], none)

/-- `VRTWriter.add_pixelfunc(band, func)`. -/
def add_pixelfunc (vrt : Dict) (band func : PyVal) : AddResult :=
  if !pyMem func VRTRASTERBAND_PIX_FUNC then
    (vrt, some (.valueError "Unsupported pixel function."))
  else
    match get_band_element vrt band with
    | .error e => (vrt, some e)
    | .ok i => (updateBandChild vrt i "PixelFunctionType" [("$", func)] [], none)

/-- `VRTWriter.add_colorinterp(band, interp)`. -/
def add_colorinterp (vrt : Dict) (band interp : PyVal) : AddResult :=
  if !pyMem interp VRTRASTERBAND_COLOR_INTERP then
    (vrt, some (.valueError (pyStr interp ++ " is not a valid color interp value.")))
  else
    match get_band_element vrt band with
    | .error e => (vrt, some e)
    | .ok i => (updateBandChild vrt i "ColorInterp" [("$", interp)] [], none)

/-- `VRTWriter.add_nodata(band, nodata, hide)`: any string is rewritten to
`"nan"`, any `int` instance (including `bool`) is coerced by `float()`, and
a value that is then not an `int`/`float`/`str` instance raises. -/
def add_nodata (vrt : Dict) (band nodata hide : PyVal) : AddResult :=
  let nodata := if isStr nodata then .vstr "nan" else nodata
  let nodata := if isInstInt nodata then .vfloat (pyFloatOfInt nodata) else nodata
  if !isIntFloatStr nodata then
    (vrt, some (.valueError "NoDataValue must be a double or NaN type value."))
  else
    match get_band_element vrt band with
    | .error e => (vrt, some e)
    | .ok i =>
        let vrt1 := updateBandChild vrt i "NoDataValue" [("$", nodata)] []
        if pyTruthy hide then
          (updateBandChild vrt1 i "HideNoDataValue"
            [("$", .vint (if pyTruthy hide then 1 else 0))] [], none)
        else (vrt1, none)

/-- The per-color entries of `add_colortable` (`TypeError` on a color that
is not iterable, raised while the sub-element is being built). -/
def colorTableEntries : List PyVal → Except PyErr (List PyVal)
  | [] => .ok []
  | c :: rest =>
      match pyIterElems c with
      | none => .error .typeError
      | some cs =>
          match colorTableEntries rest with
          | .ok es =>
              .ok (.vdict (cs.enum.map (fun p =>
                ("@c" ++ toString (p.1 + 1), p.2))) :: es)
          | .error e => .error e

/-- `VRTWriter.add_colortable(band, colors)`: the guard indexes `colors[0]`
and takes its `len`, so an empty sequence raises `IndexError` and a
first color without a length raises `TypeError`. -/
def add_colortable (vrt : Dict) (band colors : PyVal) : AddResult :=
  if !pyIsSequence colors then
    (vrt, some (.valueError "ColorTable must be a sequence of RGB/RGBA tuples"))
  else
    match ((pyIterElems colors).getD []).head? with
    | none => (vrt, some .indexError)
    | some c0 =>
        match pyLen c0 with
        | none => (vrt, some .typeError)
        | some l =>
            if l != 3 && l != 4 then
              (vrt, some (.valueError "ColorTable must be a sequence of RGB/RGBA tuples"))
            else
              match get_band_element vrt band with
              | .error e => (vrt, some e)
              | .ok i =>
                  match colorTableEntries ((pyIterElems colors).getD []) with
                  | .error e => (vrt, some e)
                  | .ok es =>
                      (updateBandChild vrt i "ColorTable"
                        [("Entry", .vlist es)] [], none)

/-- `VRTWriter.add_description(band, desc)`. -/
def add_description (vrt : Dict) (band desc : PyVal) : AddResult :=
  match get_band_element vrt band with
  | .error e => (vrt, some e)
  | .ok i => (updateBandChild vrt i "Description" [("$", desc)] [], none)

/-- `VRTWriter.add_unittype(band, unittype)`.  The band is looked up (so a
missing band still raises), but the subsequent `update_element` call passes
no `parent`, so the `UnitType` element is attached to the document root. -/
def add_unittype (vrt : Dict) (band unittype : PyVal) : AddResult :=
  if !pyMem unittype [.vstr "m", .vstr "ft"] then
    (vrt, some (.valueError "Invalid UnitType value. Valid values are 'm' or 'ft'."))
  else
    match get_band_element vrt band with
    | .error e => (vrt, some e)
    | .ok _i => (updateElement vrt "UnitType" [("$", unittype)] [], none)

/-- `VRTWriter.add_offset(band, offset)`. -/
def add_offset (vrt : Dict) (band offset : PyVal) : AddResult :=
  match get_band_element vrt band with
  | .error e => (vrt, some e)
  | .ok i => (updateBandChild vrt i "Offset" [("$", offset)] [], none)

/-- `VRTWriter.add_scale(band, scale)`. -/
def add_scale (vrt : Dict) (band scale : PyVal) : AddResult :=
  match get_band_element vrt band with
  | .error e => (vrt, some e)
  | .ok i => (updateBandChild vrt i "Scale" [("$", scale)] [], none)

/-- `VRTWriter.add_overview(band, source_filename, source_band, relative)`. -/
def add_overview (vrt : Dict) (band source_filename source_band relative : PyVal) :
    AddResult :=
  match get_band_element vrt band with
  | .error e => (vrt, some e)
  | .ok i =>
      (updateBandChild vrt i "Overview"
        [("SourceFilename", .vdict
            [("@relativeToVRT", .vint (if pyTruthy relative then 1 else 0)),
             ("$", source_filename)]),
         ("SourceBand", .vdict [("$", .vstr (pyStr source_band))])] [], none)

/-- The `sub_element` of `add_source` before the `OpenOptions` step: the
`SourceProperties`, `SrcRect` and `DstRect` blocks are each added only when
`any(...)` over their fields holds, i.e. when at least one field is truthy. -/
def sourceSubElement (source_filename source_band : PyVal)
    (src_xsize src_ysize src_dtype src_block_xsize src_block_ysize : PyVal)
    (src_win_xoff src_win_yoff src_win_xsize src_win_ysize : PyVal)
    (dst_win_xoff dst_win_yoff dst_win_xsize dst_win_ysize : PyVal)
    (relative shared : PyVal) : Dict :=
  let sub : Dict :=
    [("SourceFilename", .vdict
        [("@relativeToVRT", .vint (if pyTruthy relative then 1 else 0)),
         ("@shared", .vstr (if pyTruthy shared then "1" else "0")),
         ("$", source_filename)]),
     ("SourceBand", .vdict [("$", .vstr (pyStr source_band))])]
  let sub :=
    if pyTruthy src_xsize || pyTruthy src_ysize || pyTruthy src_block_xsize
        || pyTruthy src_block_ysize || pyTruthy src_dtype then
      dictUpdate sub [("SourceProperties", .vdict
        [("@RasterXSize", src_xsize), ("@RasterYSize", src_ysize),
         ("@DataType", src_dtype), ("@BlockXSize", src_block_xsize),
         ("@BlockYSize", src_block_ysize)])]
    else sub
  let sub :=
    if pyTruthy src_win_xoff || pyTruthy src_win_yoff || pyTruthy src_win_xsize
        || pyTruthy src_win_ysize then
      dictUpdate sub [("SrcRect", .vdict
        [("@xOff", src_win_xoff), ("@yOff", src_win_yoff),
         ("@xSize", src_win_xsize), ("@ySize", src_win_ysize)])]
    else sub
  let sub :=
    if pyTruthy dst_win_xoff || pyTruthy dst_win_yoff || pyTruthy dst_win_xsize
        || pyTruthy dst_win_ysize then
      dictUpdate sub [("DstRect", .vdict
        [("@xOff", dst_win_xoff), ("@yOff", dst_win_yoff),
         ("@xSize", dst_win_xsize), ("@ySize", dst_win_ysize)])]
    else sub
  sub

/-- The `OpenOptions` step of `add_source`: `open_options.items()` raises
`AttributeError` when a truthy non-mapping is supplied. -/
def sourceOpenOptions (sub : Dict) (open_options : PyVal) : Except PyErr Dict :=
  if pyTruthy open_options then
    match open_options with
    | .vdict xs =>
        .ok (dictUpdate sub [("OpenOptions", .vdict
          [("OOI", .vlist (xs.map (fun p =>
            .vdict [("@key", .vstr p.1), ("$", p.2)])))])])
    | _ => .error .attributeError
  else .ok sub

/-- `VRTWriter.add_source(...)`: element name `f"{type}Source"` (only
`"Simple"` yields a repeatable element kind). -/
def add_source (vrt : Dict) (band source_filename source_band : PyVal)
    (type : String)
    (src_xsize src_ysize src_dtype src_block_xsize src_block_ysize : PyVal)
    (src_win_xoff src_win_yoff src_win_xsize src_win_ysize : PyVal)
    (dst_win_xoff dst_win_yoff dst_win_xsize dst_win_ysize : PyVal)
    (relative shared open_options : PyVal) : AddResult :=
  match get_band_element vrt band with
  | .error e => (vrt, some e)
  | .ok i =>
      let sub := sourceSubElement source_filename source_band
        src_xsize src_ysize src_dtype src_block_xsize src_block_ysize
        src_win_xoff src_win_yoff src_win_xsize src_win_ysize
        dst_win_xoff dst_win_yoff dst_win_xsize dst_win_ysize
        relative shared
      match sourceOpenOptions sub open_options with
      | .error e => (vrt, some e)
      | .ok sub => (updateBandChild vrt i (type ++ "Source") sub [], none)

/-- `VRTWriter.to_string()`: the document is run through the external
schema encoder (`xmlschema`, a collaborator outside the sources), modelled
as a parameter that either yields the serialized text or raises. -/
def to_string (encode : Dict → Except PyErr String) (vrt : Dict) :
    Except PyErr String :=
  encode vrt

/-- `VRTWriter.to_file(path)` acting on the content of the target file
(`none` = the file does not exist).  `path.open("wb")` creates/truncates
the file first; only then is `self.to_string()` evaluated and its result
written, so a serialization error leaves the file empty. -/
def to_file (encode : Dict → Except PyErr String) (vrt : Dict)
    (file : Option String) : Option String × Option PyErr :=
  let opened : Option String := some ""
  match to_string encode vrt with
  | .ok s => (some s, none)
  | .error e => (opened, some e)

/-- The entry `{**mapping, **optional_mapping}` that `update_element`
inserts (the optional attributes filtered by truthiness). -/
def mergedEntry (mapping optionalMapping : Dict) : Dict :=
  dictUpdate mapping (optionalMapping.filter (fun p => pyTruthy p.2))

/-- Reader for statements: the `SimpleSource` list of the band entry at
position `i` of the `VRTRasterBand` list. -/
def bandSources (vrt : Dict) (i : Nat) : Option (List PyVal) :=
  match dictGet vrt "VRTRasterBand" with
  | some (.vlist xs) =>
      match xs.get? i with
      | some (.vdict e) =>
          match dictGet e "SimpleSource" with
          | some (.vlist ss) => some ss
          | _ => none
      | _ => none
  | _ => none

/-- The band-string of a source entry's merge key (`d["SourceBand"]` is a
dict `{"$": str(source_band)}` for entries created by `add_source`). -/
def srcKeyStr (e : PyVal) : String :=
  match repeatKeyFunc "SimpleSource" e with
  | .vdict [(_, .vstr t)] => t
  | _ => ""

/-- Statement-side wellformedness of a stored `Metadata` list: every entry
has a string `@domain` and the domains are pairwise distinct (which holds
for every list this writer itself builds). -/
def metadataWF (xs : List PyVal) : Prop :=
  (∀ e ∈ xs, isStr (repeatKeyFunc "Metadata" e) = true) ∧
    (xs.map (fun e => asStr (repeatKeyFunc "Metadata" e))).Nodup

end VRT

namespace VRT

/-! Basic facts about the embedded Python primitives. -/

@[simp] lemma pyEq_vstr_vstr (a b : String) :
    pyEq (.vstr a) (.vstr b) = (a == b) := by
  simp [pyEq]

@[simp] lemma pyEq_vstr_vlist (a : String) (l : List PyVal) :
    pyEq (.vstr a) (.vlist l) = false := by
  simp [pyEq, pyNum?]

@[simp] lemma pyEq_vstr_vdict (a : String) (l : Dict) :
    pyEq (.vstr a) (.vdict l) = false := by
  simp [pyEq, pyNum?]

@[simp] lemma pyEq_vdict_vdict (a b : Dict) :
    pyEq (.vdict a) (.vdict b) = (a.length == b.length && pyEqDict a b) := by
  simp [pyEq]

@[simp] lemma pyEq_vdict_vstr (a : Dict) (s : String) :
    pyEq (.vdict a) (.vstr s) = false := by
  simp [pyEq, pyNum?]

@[simp] lemma pyEq_vdict_vlist (a : Dict) (l : List PyVal) :
    pyEq (.vdict a) (.vlist l) = false := by
  simp [pyEq, pyNum?]

@[simp] lemma pyMem_nil (k : PyVal) : pyMem k [] = false := rfl

@[simp] lemma pyMem_cons (k v : PyVal) (vs : List PyVal) :
    pyMem k (v :: vs) = (pyEq k v || pyMem k vs) := by
  simp [pyMem]

@[simp] lemma dictGet_nil (k : String) : dictGet [] k = none := rfl

@[simp] lemma dictGet_cons (p : String × PyVal) (d : Dict) (k : String) :
    dictGet (p :: d) k = if p.1 = k then some p.2 else dictGet d k := rfl

@[simp] lemma setKey_nil (k : String) (v : PyVal) : setKey [] k v = [(k, v)] := rfl

@[simp] lemma setKey_cons (p : String × PyVal) (d : Dict) (k : String) (v : PyVal) :
    setKey (p :: d) k v = if p.1 = k then (k, v) :: d else p :: setKey d k v := rfl

@[simp] lemma dictGet_setKey_self (d : Dict) (k : String) (v : PyVal) :
    dictGet (setKey d k v) k = some v := by
  induction d with
  | nil => simp
  | cons p d ih =>
      by_cases hp : p.1 = k
      · simp [hp]
      · simp [hp, ih]

lemma dictGet_setKey_ne (d : Dict) (k k' : String) (v : PyVal) (h : k' ≠ k) :
    dictGet (setKey d k v) k' = dictGet d k' := by
  induction d with
  | nil => simp [Ne.symm h]
  | cons p d ih =>
      by_cases hp : p.1 = k
      · simp [hp, Ne.symm h]
      · by_cases hp' : p.1 = k' <;> simp [hp, hp', h, ih]

lemma setKey_setKey_same (d : Dict) (k : String) (v1 v2 : PyVal) :
    setKey (setKey d k v1) k v2 = setKey d k v2 := by
  induction d with
  | nil => simp
  | cons p d ih =>
      by_cases hp : p.1 = k
      · simp [hp]
      · simp [hp, ih]

lemma keys_setKey (d : Dict) (k : String) (v : PyVal) :
    (setKey d k v).map Prod.fst =
      (if hasKey d k then d.map Prod.fst else d.map Prod.fst ++ [k]) := by
  induction d with
  | nil => simp [hasKey]
  | cons p d ih =>
      by_cases hp : p.1 = k
      · simp [hasKey, hp]
      · simp only [setKey_cons, if_neg hp, List.map_cons, ih, hasKey, dictGet_cons]
        by_cases hk : hasKey d k <;>
          simp_all [hasKey, hp]

/-- When no two consecutive entries have `==`-equal merge keys (true in
particular for pairwise distinct keys), every `groupby` group is a
singleton. -/
lemma groupby_of_chain (f : PyVal → PyVal) (xs : List PyVal)
    (h : List.Chain' (fun a b => pyEq (f a) (f b) = false) xs) :
    groupby f xs = xs.map (fun x => (f x, x, ([] : List PyVal))) := by
  induction xs with
  | nil => rfl
  | cons x xs ih =>
      cases xs with
      | nil => rfl
      | cons y ys =>
          have h1 : pyEq (f x) (f y) = false := (List.chain'_cons.mp h).1
          have h2 := (List.chain'_cons.mp h).2
          have hstep : groupby f (x :: y :: ys) =
              match groupby f (y :: ys) with
              | [] => [(f x, x, [])]
              | (k, g, t) :: rest =>
                  if pyEq (f x) k then (f x, x, g :: t) :: rest
                  else (f x, x, []) :: (k, g, t) :: rest := rfl
          rw [hstep, ih h2]
          simp [h1]

lemma any_map_keyFirst (f : PyVal → PyVal) (p : PyVal → Bool) (xs : List PyVal) :
    ((xs.map (fun x => (f x, x, ([] : List PyVal)))).any (fun g => p g.1))
      = xs.any (fun x => p (f x)) := by
  induction xs with
  | nil => rfl
  | cons x xs ih => simp [ih]

/-- `update_element` on a repeatable element whose stored list has no two
consecutive `==`-equal merge keys: every entry whose key occurs among the
values of the new mapping is replaced in place by the new entry; if none
matched, the new entry is appended at the end. -/
lemma updateElement_repeatable (node : Dict) (element : String)
    (mapping optionalMapping : Dict) (xs : List PyVal)
    (hrep : REPEATABLE_ELEMENTS.contains element = true)
    (hget : dictGet node element = some (.vlist xs))
    (hchain : List.Chain'
      (fun a b => pyEq (repeatKeyFunc element a) (repeatKeyFunc element b) = false) xs) :
    updateElement node element mapping optionalMapping =
      setKey node element (.vlist
        (if xs.any (fun x => pyMem (repeatKeyFunc element x) (dictValues mapping)) then
          xs.map (fun x =>
            if pyMem (repeatKeyFunc element x) (dictValues mapping) then
              .vdict (mergedEntry mapping optionalMapping)
            else x)
        else xs ++ [.vdict (mergedEntry mapping optionalMapping)])) := by
  unfold updateElement mergedEntry
  simp only [hrep, hget, if_true]
  rw [groupby_of_chain _ _ hchain]
  have htouch : ((List.map (fun x => (repeatKeyFunc element x, x, ([] : List PyVal))) xs).any
      (fun g => pyMem g.1 (dictValues mapping)))
      = xs.any (fun x => pyMem (repeatKeyFunc element x) (dictValues mapping)) :=
    any_map_keyFirst (repeatKeyFunc element)
      (fun v => pyMem v (dictValues mapping)) xs
  have hd0 : List.map (fun g =>
        if pyMem g.1 (dictValues mapping) then
          PyVal.vdict (dictUpdate mapping
            (List.filter (fun p => pyTruthy p.2) optionalMapping))
        else g.2.1)
      (List.map (fun x => (repeatKeyFunc element x, x, ([] : List PyVal))) xs)
      = List.map (fun x =>
          if pyMem (repeatKeyFunc element x) (dictValues mapping) then
            PyVal.vdict (dictUpdate mapping
              (List.filter (fun p => pyTruthy p.2) optionalMapping))
          else x) xs := by
    rw [List.map_map]
    rfl
  rw [htouch, hd0]
  simp only [List.length_map, beq_self_eq_true, Bool.true_and]
  cases hA : xs.any (fun x => pyMem (repeatKeyFunc element x) (dictValues mapping)) with
  | true =>
      simp only [hA, Bool.not_true, Bool.and_false, Bool.false_eq_true,
        if_false, if_true]
  | false =>
      have hall := List.any_eq_false.mp hA
      have hmap : xs.map (fun x =>
          if pyMem (repeatKeyFunc element x) (dictValues mapping) then
            PyVal.vdict (dictUpdate mapping
              (optionalMapping.filter (fun p => pyTruthy p.2)))
          else x) = xs := by
        have := List.map_congr_left (l := xs)
          (f := fun x =>
            if pyMem (repeatKeyFunc element x) (dictValues mapping) then
              PyVal.vdict (dictUpdate mapping
                (optionalMapping.filter (fun p => pyTruthy p.2)))
            else x)
          (g := id) (fun a ha => by simp [hall a ha])
        simpa using this
      simp only [hA, Bool.not_false, Bool.false_eq_true, if_false, if_true,
        Bool.and_true]
      rw [hmap]

end VRT

namespace VRT

lemma hasKey_setKey (d : Dict) (k : String) (v : PyVal) (k' : String) :
    hasKey (setKey d k v) k' = (k == k' || hasKey d k') := by
  by_cases h : k' = k
  · subst h
    simp [hasKey, dictGet_setKey_self]
  · rw [hasKey, dictGet_setKey_ne d k k' v h]
    have : (k == k') = false := by
      simp only [beq_eq_false_iff_ne, ne_eq]
      exact fun hc => h hc.symm
    simp [this, hasKey]

/-! Closed evaluations deciding the claims that fail on concrete inputs. -/

/-- C1: refuted on the code (the spec states the invariant the code was
meant to maintain): after the successful calls `add_vrtrasterband(1,
dtype="Byte")`, `add_vrtrasterband(5, dtype="Byte")`,
`add_vrtrasterband(5, dtype=1)`, the `VRTRasterBand` sequence contains two
entries with the same merge-key value `5` — the membership test
`key in mapping.values()` also matches the first band's key `1` against the
new entry's `dataType` value `1`, so both existing groups are replaced by a
copy of the new entry instead of one entry being replaced in place. -/
theorem C1_duplicate_merge_keys :
    (add_vrtrasterband [] (.vint 1) (.vstr "Byte") .vnone).2 = none ∧
    (add_vrtrasterband
      (add_vrtrasterband [] (.vint 1) (.vstr "Byte") .vnone).1
      (.vint 5) (.vstr "Byte") .vnone).2 = none ∧
    (add_vrtrasterband
      (add_vrtrasterband
        (add_vrtrasterband [] (.vint 1) (.vstr "Byte") .vnone).1
        (.vint 5) (.vstr "Byte") .vnone).1
      (.vint 5) (.vint 1) .vnone).2 = none ∧
    dictGet
      (add_vrtrasterband
        (add_vrtrasterband
          (add_vrtrasterband [] (.vint 1) (.vstr "Byte") .vnone).1
          (.vint 5) (.vstr "Byte") .vnone).1
        (.vint 5) (.vint 1) .vnone).1 "VRTRasterBand"
      = some (.vlist
          [.vdict [("@band", .vint 5), ("@dataType", .vint 1)],
           .vdict [("@band", .vint 5), ("@dataType", .vint 1)]]) ∧
    repeatKeyFunc "VRTRasterBand"
        (.vdict [("@band", .vint 5), ("@dataType", .vint 1)]) = .vint 5 :=
  ⟨rfl, rfl, rfl, rfl, rfl⟩

/-- C2 counterexample: band 1 holds two existing source entries, keyed by
the pairs ("a.tif", 1) and ("c.tif", 2).  Calling `add_source` with
("b.tif", 1) — a pair differing from ("a.tif", 1) in the filename, so by
the claim it must not replace that entry — does replace it in place (the
second entry, with a different band, is left alone): the merge key the
code uses is the `SourceBand` value alone, ignoring the filename. -/
theorem C2_counterexample :
    (add_source
      [("VRTRasterBand", .vlist [.vdict
        [("@band", .vint 1), ("@dataType", .vstr "Byte"),
         ("SimpleSource", .vlist
           [.vdict
             [("SourceFilename", .vdict
                [("@relativeToVRT", .vint 0), ("@shared", .vstr "1"),
                 ("$", .vstr "a.tif")]),
              ("SourceBand", .vdict [("$", .vstr "1")])],
            .vdict
             [("SourceFilename", .vdict
                [("@relativeToVRT", .vint 0), ("@shared", .vstr "1"),
                 ("$", .vstr "c.tif")]),
              ("SourceBand", .vdict [("$", .vstr "2")])]])]])]
      (.vint 1) (.vstr "b.tif") (.vint 1) "Simple"
      .vnone .vnone .vnone .vnone .vnone .vnone .vnone .vnone .vnone
      .vnone .vnone .vnone .vnone (.vbool false) (.vbool true) .vnone).2
      = none ∧
    bandSources
      (add_source
        [("VRTRasterBand", .vlist [.vdict
          [("@band", .vint 1), ("@dataType", .vstr "Byte"),
           ("SimpleSource", .vlist
             [.vdict
               [("SourceFilename", .vdict
                  [("@relativeToVRT", .vint 0), ("@shared", .vstr "1"),
                   ("$", .vstr "a.tif")]),
                ("SourceBand", .vdict [("$", .vstr "1")])],
              .vdict
               [("SourceFilename", .vdict
                  [("@relativeToVRT", .vint 0), ("@shared", .vstr "1"),
                   ("$", .vstr "c.tif")]),
                ("SourceBand", .vdict [("$", .vstr "2")])]])]])]
        (.vint 1) (.vstr "b.tif") (.vint 1) "Simple"
        .vnone .vnone .vnone .vnone .vnone .vnone .vnone .vnone .vnone
        .vnone .vnone .vnone .vnone (.vbool false) (.vbool true) .vnone).1 0
      = some
          [.vdict
            [("SourceFilename", .vdict
               [("@relativeToVRT", .vint 0), ("@shared", .vstr "1"),
                ("$", .vstr "b.tif")]),
             ("SourceBand", .vdict [("$", .vstr "1")])],
           .vdict
            [("SourceFilename", .vdict
               [("@relativeToVRT", .vint 0), ("@shared", .vstr "1"),
                ("$", .vstr "c.tif")]),
             ("SourceBand", .vdict [("$", .vstr "2")])]] :=
  ⟨rfl, rfl⟩

/-- C6 counterexample: the string "foobar" is not a NaN sentinel, yet
`add_nodata` succeeds and stores the literal NaN token instead of raising
an invalid-argument error (every string is rewritten to `"nan"`). -/
theorem C6_counterexample :
    let vrt0 : Dict := [("VRTRasterBand", .vlist
      [.vdict [("@band", .vint 1), ("@dataType", .vstr "Byte")]])]
    let r := add_nodata vrt0 (.vint 1) (.vstr "foobar") .vnone
    r.2 = none ∧
    dictGet r.1 "VRTRasterBand" = some (.vlist [.vdict
      [("@band", .vint 1), ("@dataType", .vstr "Byte"),
       ("NoDataValue", .vdict [("$", .vstr "nan")])]]) :=
  ⟨rfl, rfl⟩

/-- C6 amended: `add_nodata` coerces every numeric value (ints, floats and
bools) to floating point, coerces every string — NaN sentinel or not — to
the literal `"nan"` token, and raises an invalid-argument error exactly for
values that are neither numeric nor strings, leaving the document
untouched in that case. -/
theorem C6_amended_nodata_coercion (vrt : Dict) (band : PyVal) :
    (∀ i, get_band_element vrt band = .ok i →
      (∀ n : Int, add_nodata vrt band (.vint n) .vnone =
        (updateBandChild vrt i "NoDataValue" [("$", .vfloat (n : Rat))] [], none)) ∧
      (∀ q : Rat, add_nodata vrt band (.vfloat q) .vnone =
        (updateBandChild vrt i "NoDataValue" [("$", .vfloat q)] [], none)) ∧
      (∀ s : String, add_nodata vrt band (.vstr s) .vnone =
        (updateBandChild vrt i "NoDataValue" [("$", .vstr "nan")] [], none)) ∧
      (∀ b : Bool, add_nodata vrt band (.vbool b) .vnone =
        (updateBandChild vrt i "NoDataValue"
          [("$", .vfloat (if b then 1 else 0))] [], none))) ∧
    (add_nodata vrt band .vnone .vnone =
      (vrt, some (.valueError "NoDataValue must be a double or NaN type value."))) ∧
    (∀ l, add_nodata vrt band (.vlist l) .vnone =
      (vrt, some (.valueError "NoDataValue must be a double or NaN type value."))) ∧
    (∀ d, add_nodata vrt band (.vdict d) .vnone =
      (vrt, some (.valueError "NoDataValue must be a double or NaN type value."))) := by
  constructor
  · intro i hi
    refine ⟨fun n => ?_, fun q => ?_, fun s => ?_, fun b => ?_⟩ <;>
      simp [add_nodata, isStr, isInstInt, isIntFloatStr, pyFloatOfInt,
        pyTruthy, hi]
  · refine ⟨?_, fun l => ?_, fun d => ?_⟩ <;>
      simp [add_nodata, isStr, isInstInt, isIntFloatStr, pyTruthy]

/-- C6 amended, witness: on the one-band document, `add_nodata(1, "x")`
stores the NaN token under the band. -/
theorem C6_amended_witness :
    add_nodata
      [("VRTRasterBand", .vlist
        [.vdict [("@band", .vint 1), ("@dataType", .vstr "Byte")]])]
      (.vint 1) (.vstr "x") .vnone =
      (updateBandChild
        [("VRTRasterBand", .vlist
          [.vdict [("@band", .vint 1), ("@dataType", .vstr "Byte")]])]
        0 "NoDataValue" [("$", .vstr "nan")] [], none) :=
  (((C6_amended_nodata_coercion
      [("VRTRasterBand", .vlist
        [.vdict [("@band", .vint 1), ("@dataType", .vstr "Byte")]])]
      (.vint 1)).1 0 rfl).2.2.1 "x")

/-- C7: refuted placement (the validation half of the claim is correct):
with band 1 present, `add_unittype(1, "m")` succeeds but attaches the
`UnitType` element at the document root — the computed band parent is not
passed to `update_element` — leaving the band subtree unchanged; an invalid
unit raises and leaves the document unchanged. -/
theorem C7_unittype_at_root :
    (add_unittype
      [("VRTRasterBand", .vlist
        [.vdict [("@band", .vint 1), ("@dataType", .vstr "Byte")]])]
      (.vint 1) (.vstr "m")).2 = none ∧
    dictGet (add_unittype
      [("VRTRasterBand", .vlist
        [.vdict [("@band", .vint 1), ("@dataType", .vstr "Byte")]])]
      (.vint 1) (.vstr "m")).1 "UnitType" = some (.vdict [("$", .vstr "m")]) ∧
    dictGet (add_unittype
      [("VRTRasterBand", .vlist
        [.vdict [("@band", .vint 1), ("@dataType", .vstr "Byte")]])]
      (.vint 1) (.vstr "m")).1 "VRTRasterBand"
      = some (.vlist
          [.vdict [("@band", .vint 1), ("@dataType", .vstr "Byte")]]) ∧
    (add_unittype
      [("VRTRasterBand", .vlist
        [.vdict [("@band", .vint 1), ("@dataType", .vstr "Byte")]])]
      (.vint 1) (.vstr "x")).2 =
      some (.valueError "Invalid UnitType value. Valid values are 'm' or 'ft'.") ∧
    (add_unittype
      [("VRTRasterBand", .vlist
        [.vdict [("@band", .vint 1), ("@dataType", .vstr "Byte")]])]
      (.vint 1) (.vstr "x")).1 =
      [("VRTRasterBand", .vlist
        [.vdict [("@band", .vint 1), ("@dataType", .vstr "Byte")]])] :=
  ⟨rfl, rfl, rfl, rfl, rfl⟩

/-- C8 counterexample: a source window whose only supplied field is the
value 0 (`src_win_xoff=0`, a non-null value) is dropped: the produced
source entry has no `SrcRect` block, because `any(...)` tests truthiness
and 0 is falsy. -/
theorem C8_counterexample :
    let vrt0 : Dict := [("VRTRasterBand", .vlist
      [.vdict [("@band", .vint 1), ("@dataType", .vstr "Byte")]])]
    let r := add_source vrt0 (.vint 1) (.vstr "a.tif") (.vint 1) "Simple"
      .vnone .vnone .vnone .vnone .vnone
      (.vint 0) .vnone .vnone .vnone
      .vnone .vnone .vnone .vnone (.vbool false) (.vbool true) .vnone
    r.2 = none ∧
    bandSources r.1 0 = some [.vdict
      [("SourceFilename", .vdict
         [("@relativeToVRT", .vint 0), ("@shared", .vstr "1"),
          ("$", .vstr "a.tif")]),
       ("SourceBand", .vdict [("$", .vstr "1")])]] ∧
    hasKey [("SourceFilename", PyVal.vdict
         [("@relativeToVRT", .vint 0), ("@shared", .vstr "1"),
          ("$", .vstr "a.tif")]),
       ("SourceBand", PyVal.vdict [("$", .vstr "1")])] "SrcRect" = false :=
  ⟨rfl, rfl, rfl⟩

/-- C8 amended: the `SrcRect` block is included in the produced source
entry if and only if at least one of its four fields is truthy (non-null
and non-zero), and likewise for `DstRect`; a window whose only supplied
fields are 0 is NOT included. -/
theorem C8_amended_window_truthiness
    (sf sb a1 a2 a3 a4 a5 sx1 sx2 sx3 sx4 dx1 dx2 dx3 dx4 rel sh : PyVal) :
    hasKey (sourceSubElement sf sb a1 a2 a3 a4 a5 sx1 sx2 sx3 sx4
        dx1 dx2 dx3 dx4 rel sh) "SrcRect"
      = (pyTruthy sx1 || pyTruthy sx2 || pyTruthy sx3 || pyTruthy sx4) ∧
    hasKey (sourceSubElement sf sb a1 a2 a3 a4 a5 sx1 sx2 sx3 sx4
        dx1 dx2 dx3 dx4 rel sh) "DstRect"
      = (pyTruthy dx1 || pyTruthy dx2 || pyTruthy dx3 || pyTruthy dx4) := by
  refine ⟨?_, ?_⟩ <;>
    (by_cases hP : (pyTruthy a1 || pyTruthy a2 || pyTruthy a4
        || pyTruthy a5 || pyTruthy a3) = true <;>
     by_cases hS : (pyTruthy sx1 || pyTruthy sx2 || pyTruthy sx3
        || pyTruthy sx4) = true <;>
     by_cases hD : (pyTruthy dx1 || pyTruthy dx2 || pyTruthy dx3
        || pyTruthy dx4) = true <;>
     simp [sourceSubElement, hP, hS, hD, hasKey_setKey, dictUpdate,
       hasKey, dictGet])

/-- C5 counterexample: `to_file` on a document whose serialization raises a
schema-validation error does modify the prior state of the target file —
the file was already opened with mode "wb" (truncated) before `to_string`
was evaluated. -/
theorem C5_counterexample :
    let enc : Dict → Except PyErr String := fun _ => .error (.valueError "schema")
    let r := to_file enc [] (some "old content")
    r.2.isSome = true ∧ r.1 ≠ some "old content" :=
  ⟨rfl, by decide⟩

/-- C5 amended: `to_file` first creates/truncates the target file, then
serializes: on success the full serialized content is the file's content;
when `to_string` raises, the error propagates and the file is left empty
(truncated), not with its prior content. -/
theorem C5_amended_truncate_then_write
    (enc : Dict → Except PyErr String) (vrt : Dict) (file : Option String) :
    (∀ s, to_string enc vrt = .ok s → to_file enc vrt file = (some s, none)) ∧
    (∀ e, to_string enc vrt = .error e → to_file enc vrt file = (some "", some e)) := by
  constructor <;> intro x h <;> simp [to_file, h]

/-- C5 amended, witness: a failing encoder leaves the file truncated. -/
theorem C5_amended_witness :
    to_file (fun _ => .error (.valueError "schema")) [] (some "old") =
      (some "", some (.valueError "schema")) :=
  (C5_amended_truncate_then_write (fun _ => .error (.valueError "schema"))
    [] (some "old")).2 (.valueError "schema") rfl

/-- C9: adding a valid structured spatial-reference object and adding its
exported WKT text produce identical documents: both paths escape the same
WKT string and store it as the `SRS` element's text, with the same
axis-mapping handling. -/
theorem C9_srs_object_vs_wkt (vrt : Dict) (o : SRSObj) (am : PyVal)
    (hv : o.validateResult = VALID_SRS) (hw : o.exportToWkt ≠ "") :
    add_srs vrt (some o) .vnone .vnone am
      = add_srs vrt none (.vstr o.exportToWkt) .vnone am := by
  unfold add_srs
  simp [hv, hw, pyTruthy, isStr, asStr]

/-- C9 witness: a concrete valid spatial-reference object and its exported
text yield the same document. -/
theorem C9_witness :
    add_srs [] (some ⟨0, "GEOGCS[\"WGS 84\"]", true, []⟩) .vnone .vnone .vnone
      = add_srs [] none (.vstr "GEOGCS[\"WGS 84\"]") .vnone .vnone :=
  C9_srs_object_vs_wkt [] ⟨0, "GEOGCS[\"WGS 84\"]", true, []⟩ .vnone rfl
    (by decide)

end VRT

namespace VRT

lemma updateElement_not_repeatable (node : Dict) (element : String) (m o : Dict)
    (hrep : REPEATABLE_ELEMENTS.contains element = false)
    (hds : (element == "VRTDataset") = false) :
    updateElement node element m o = setKey node element (.vdict (mergedEntry m o)) := by
  unfold updateElement mergedEntry
  simp only [hrep, hds, Bool.false_eq_true, if_false]

lemma hasKey_iff_mem_keys (d : Dict) (k : String) :
    hasKey d k = true ↔ k ∈ d.map Prod.fst := by
  induction d with
  | nil => simp [hasKey, dictGet]
  | cons p d ih =>
      by_cases hp : p.1 = k
      · simp [hasKey, dictGet, hp]
      · simp only [hasKey, dictGet, if_neg hp, List.map_cons, List.mem_cons]
        rw [← hasKey]
        constructor
        · intro h
          exact Or.inr (ih.mp h)
        · intro h
          rcases h with h | h
          · exact absurd h.symm hp
          · exact ih.mpr h

lemma nodupKeys_setKey (d : Dict) (k : String) (v : PyVal)
    (h : (d.map Prod.fst).Nodup) : ((setKey d k v).map Prod.fst).Nodup := by
  rw [keys_setKey]
  by_cases hk : hasKey d k
  · simpa [hk] using h
  · simp only [hk, Bool.false_eq_true, if_false]
    refine List.Nodup.append h (List.nodup_singleton k) ?_
    intro a ha hb
    simp only [List.mem_singleton] at hb
    subst hb
    exact absurd ((hasKey_iff_mem_keys d a).mpr ha) (by simp [hk])

lemma filter_setKey_length (d : Dict) (k : String) (v : PyVal)
    (h : (d.map Prod.fst).Nodup) :
    ((setKey d k v).filter (fun p => p.1 == k)).length = 1 := by
  induction d with
  | nil => simp
  | cons p d ih =>
      have hnd : p.1 ∉ d.map Prod.fst ∧ (d.map Prod.fst).Nodup := by
        rw [List.map_cons, List.nodup_cons] at h
        exact h
      by_cases hp : p.1 = k
      · have hknotin : k ∉ d.map Prod.fst := hp ▸ hnd.1
        have hf : d.filter (fun p => p.1 == k) = [] := by
          rw [List.filter_eq_nil_iff]
          intro a ha
          simp only [beq_iff_eq]
          intro hak
          exact hknotin (hak ▸ List.mem_map_of_mem Prod.fst ha)
        simp [hp, hf]
      · simp only [setKey_cons, if_neg hp]
        rw [List.filter_cons_of_neg (by simpa using hp)]
        exact ih hnd.2

/-- C10: for a non-repeatable element kind, invoking the update again
replaces the previously stored element entirely under the same parent node
(last write wins), leaves every other element of that node unchanged, and
never creates a second sibling of that kind. -/
theorem C10_non_repeatable_last_write_wins (node : Dict) (element : String)
    (m1 o1 m2 o2 : Dict)
    (hrep : REPEATABLE_ELEMENTS.contains element = false)
    (hds : (element == "VRTDataset") = false) :
    updateElement (updateElement node element m1 o1) element m2 o2
        = updateElement node element m2 o2 ∧
    dictGet (updateElement node element m2 o2) element
        = some (.vdict (mergedEntry m2 o2)) ∧
    (∀ k, k ≠ element →
      dictGet (updateElement node element m2 o2) k = dictGet node k) ∧
    ((node.map Prod.fst).Nodup →
      ((updateElement node element m2 o2).map Prod.fst).Nodup ∧
      ((updateElement node element m2 o2).filter
        (fun p => p.1 == element)).length = 1) := by
  have h1 := updateElement_not_repeatable node element m1 o1 hrep hds
  have h2 := updateElement_not_repeatable node element m2 o2 hrep hds
  have h2b := updateElement_not_repeatable
    (setKey node element (.vdict (mergedEntry m1 o1))) element m2 o2 hrep hds
  refine ⟨?_, ?_, ?_, ?_⟩
  · rw [h1, h2b, h2, setKey_setKey_same]
  · rw [h2]
    exact dictGet_setKey_self node element _
  · intro k hk
    rw [h2]
    exact dictGet_setKey_ne node element k _ hk
  · intro hnd
    rw [h2]
    exact ⟨nodupKeys_setKey node element _ hnd,
      filter_setKey_length node element _ hnd⟩

/-- C10 witness: re-adding a `GeoTransform` at the root overwrites the
previous one (last write wins on the concrete document). -/
theorem C10_witness :
    updateElement (updateElement [] "GeoTransform" [("$", .vstr "a")] [])
        "GeoTransform" [("$", .vstr "b")] []
      = updateElement [] "GeoTransform" [("$", .vstr "b")] [] :=
  (C10_non_repeatable_last_write_wins [] "GeoTransform"
    [("$", .vstr "a")] [] [("$", .vstr "b")] [] (by decide) (by decide)).1

end VRT

namespace VRT

/-! Error atomicity: every raising branch of the writer's methods returns
the document exactly as it was (all validation and lookups precede the
first mutation in the source). -/

lemma add_vrtdataset_atomic (vrt : Dict) (x y s : PyVal) :
    (add_vrtdataset vrt x y s).2.isSome → (add_vrtdataset vrt x y s).1 = vrt := by
  unfold add_vrtdataset
  repeat' split
  all_goals simp

lemma add_srs_atomic (vrt : Dict) (srs : Option SRSObj) (w u a : PyVal) :
    (add_srs vrt srs w u a).2.isSome → (add_srs vrt srs w u a).1 = vrt := by
  unfold add_srs
  repeat' split
  all_goals simp

lemma add_geotransform_atomic (vrt : Dict) (g : PyVal) :
    (add_geotransform vrt g).2.isSome → (add_geotransform vrt g).1 = vrt := by
  unfold add_geotransform
  repeat' split
  all_goals simp

lemma add_gcps_atomic (vrt : Dict) (gcps : List GCP) (srs : Option SRSObj) :
    (add_gcps vrt gcps srs).2.isSome → (add_gcps vrt gcps srs).1 = vrt := by
  unfold add_gcps
  repeat' split
  all_goals simp

lemma add_metadata_atomic (vrt : Dict) (m dom band : PyVal) :
    (add_metadata vrt m dom band).2.isSome → (add_metadata vrt m dom band).1 = vrt := by
  unfold add_metadata
  repeat' split
  all_goals try simp
  all_goals repeat' split
  all_goals simp

lemma add_vrtrasterband_atomic (vrt : Dict) (b dt s : PyVal) :
    (add_vrtrasterband vrt b dt s).2.isSome → (add_vrtrasterband vrt b dt s).1 = vrt := by
  unfold add_vrtrasterband
  repeat' split
  all_goals simp

lemma add_pixelfunc_atomic (vrt : Dict) (b f : PyVal) :
    (add_pixelfunc vrt b f).2.isSome → (add_pixelfunc vrt b f).1 = vrt := by
  unfold add_pixelfunc
  repeat' split
  all_goals simp

lemma add_colorinterp_atomic (vrt : Dict) (b i : PyVal) :
    (add_colorinterp vrt b i).2.isSome → (add_colorinterp vrt b i).1 = vrt := by
  unfold add_colorinterp
  repeat' split
  all_goals simp

lemma add_nodata_atomic (vrt : Dict) (b nd h : PyVal) :
    (add_nodata vrt b nd h).2.isSome → (add_nodata vrt b nd h).1 = vrt := by
  unfold add_nodata
  repeat' split
  all_goals try simp
  all_goals repeat' split
  all_goals simp

lemma add_colortable_atomic (vrt : Dict) (b c : PyVal) :
    (add_colortable vrt b c).2.isSome → (add_colortable vrt b c).1 = vrt := by
  unfold add_colortable
  repeat' split
  all_goals simp

lemma add_description_atomic (vrt : Dict) (b d : PyVal) :
    (add_description vrt b d).2.isSome → (add_description vrt b d).1 = vrt := by
  unfold add_description
  repeat' split
  all_goals simp

lemma add_unittype_atomic (vrt : Dict) (b u : PyVal) :
    (add_unittype vrt b u).2.isSome → (add_unittype vrt b u).1 = vrt := by
  unfold add_unittype
  repeat' split
  all_goals simp

lemma add_offset_atomic (vrt : Dict) (b o : PyVal) :
    (add_offset vrt b o).2.isSome → (add_offset vrt b o).1 = vrt := by
  unfold add_offset
  repeat' split
  all_goals simp

lemma add_scale_atomic (vrt : Dict) (b s : PyVal) :
    (add_scale vrt b s).2.isSome → (add_scale vrt b s).1 = vrt := by
  unfold add_scale
  repeat' split
  all_goals simp

lemma add_overview_atomic (vrt : Dict) (b sf sb r : PyVal) :
    (add_overview vrt b sf sb r).2.isSome → (add_overview vrt b sf sb r).1 = vrt := by
  unfold add_overview
  repeat' split
  all_goals simp

lemma add_source_atomic (vrt : Dict) (b sf sb : PyVal) (ty : String)
    (a1 a2 a3 a4 a5 s1 s2 s3 s4 d1 d2 d3 d4 rel sh oo : PyVal) :
    (add_source vrt b sf sb ty a1 a2 a3 a4 a5 s1 s2 s3 s4 d1 d2 d3 d4 rel sh oo).2.isSome →
      (add_source vrt b sf sb ty a1 a2 a3 a4 a5 s1 s2 s3 s4 d1 d2 d3 d4 rel sh oo).1 = vrt := by
  unfold add_source
  repeat' split
  all_goals try simp
  all_goals
    cases hoo : sourceOpenOptions
      (sourceSubElement sf sb a1 a2 a3 a4 a5 s1 s2 s3 s4 d1 d2 d3 d4 rel sh) oo <;>
    simp [hoo]

/-- C3: every invalid-argument error and every missing-reference error of
the writer's `add_*` methods is raised synchronously by the call itself and
leaves the document exactly as it was before the call: in the embedding,
whenever a call reports an exception, the returned document state equals
the input document. -/
theorem C3_error_atomicity (vrt : Dict) :
    (∀ x y s, (add_vrtdataset vrt x y s).2.isSome → (add_vrtdataset vrt x y s).1 = vrt) ∧
    (∀ srs w u a, (add_srs vrt srs w u a).2.isSome → (add_srs vrt srs w u a).1 = vrt) ∧
    (∀ g, (add_geotransform vrt g).2.isSome → (add_geotransform vrt g).1 = vrt) ∧
    (∀ gcps srs, (add_gcps vrt gcps srs).2.isSome → (add_gcps vrt gcps srs).1 = vrt) ∧
    (∀ m dom band, (add_metadata vrt m dom band).2.isSome → (add_metadata vrt m dom band).1 = vrt) ∧
    (∀ b dt s, (add_vrtrasterband vrt b dt s).2.isSome → (add_vrtrasterband vrt b dt s).1 = vrt) ∧
    (∀ b f, (add_pixelfunc vrt b f).2.isSome → (add_pixelfunc vrt b f).1 = vrt) ∧
    (∀ b i, (add_colorinterp vrt b i).2.isSome → (add_colorinterp vrt b i).1 = vrt) ∧
    (∀ b nd h, (add_nodata vrt b nd h).2.isSome → (add_nodata vrt b nd h).1 = vrt) ∧
    (∀ b c, (add_colortable vrt b c).2.isSome → (add_colortable vrt b c).1 = vrt) ∧
    (∀ b d, (add_description vrt b d).2.isSome → (add_description vrt b d).1 = vrt) ∧
    (∀ b u, (add_unittype vrt b u).2.isSome → (add_unittype vrt b u).1 = vrt) ∧
    (∀ b o, (add_offset vrt b o).2.isSome → (add_offset vrt b o).1 = vrt) ∧
    (∀ b s, (add_scale vrt b s).2.isSome → (add_scale vrt b s).1 = vrt) ∧
    (∀ b sf sb r, (add_overview vrt b sf sb r).2.isSome → (add_overview vrt b sf sb r).1 = vrt) ∧
    (∀ b sf sb ty a1 a2 a3 a4 a5 s1 s2 s3 s4 d1 d2 d3 d4 rel sh oo,
      (add_source vrt b sf sb ty a1 a2 a3 a4 a5 s1 s2 s3 s4 d1 d2 d3 d4 rel sh oo).2.isSome →
        (add_source vrt b sf sb ty a1 a2 a3 a4 a5 s1 s2 s3 s4 d1 d2 d3 d4 rel sh oo).1 = vrt) :=
  ⟨add_vrtdataset_atomic vrt, add_srs_atomic vrt, add_geotransform_atomic vrt,
   add_gcps_atomic vrt, add_metadata_atomic vrt, add_vrtrasterband_atomic vrt,
   add_pixelfunc_atomic vrt, add_colorinterp_atomic vrt, add_nodata_atomic vrt,
   add_colortable_atomic vrt, add_description_atomic vrt, add_unittype_atomic vrt,
   add_offset_atomic vrt, add_scale_atomic vrt, add_overview_atomic vrt,
   add_source_atomic vrt⟩

/-- C3 witness: an invalid subclass (enumeration error) and a source added
to a missing band (missing-reference error) both leave the empty document
unchanged. -/
theorem C3_witness :
    (add_vrtdataset [] (.vint 8) (.vint 8) (.vstr "NotVRTWarpedDataset")).1 = [] ∧
    (add_pixelfunc [] (.vint 1) (.vstr "dB")).1 = [] :=
  ⟨(C3_error_atomicity []).1 (.vint 8) (.vint 8) (.vstr "NotVRTWarpedDataset") rfl,
   (C3_error_atomicity []).2.2.2.2.2.2.1 (.vint 1) (.vstr "dB") rfl⟩

end VRT

namespace VRT

@[simp] lemma mergedEntry_nil (m : Dict) : mergedEntry m [] = m := rfl

lemma isStr_exists (v : PyVal) (h : isStr v = true) : ∃ s, v = .vstr s := by
  cases v <;> simp [isStr] at h ⊢

lemma pyEq_vstr_of_not_str (v : PyVal) (t : String) (h : isStr v = false) :
    pyEq v (.vstr t) = false := by
  cases v <;> simp [isStr] at h ⊢ <;> simp [pyEq, pyNum?]

lemma any_congr_mem {α : Type} (xs : List α) (p q : α → Bool)
    (h : ∀ a ∈ xs, p a = q a) : xs.any p = xs.any q := by
  induction xs with
  | nil => rfl
  | cons x xs ih =>
      simp only [List.any_cons]
      rw [h x (by simp), ih (fun a ha => h a (by simp [ha]))]

/-- Entries whose merge keys compare by `==` exactly as some string
projection compares, with pairwise distinct projections, have no two
consecutive `==`-equal keys. -/
lemma chain_distinct_of_nodup_proj (key : PyVal → PyVal) (proj : PyVal → String)
    (xs : List PyVal)
    (hEq : ∀ a ∈ xs, ∀ b ∈ xs, pyEq (key a) (key b) = (proj a == proj b))
    (hnd : (xs.map proj).Nodup) :
    List.Chain' (fun a b => pyEq (key a) (key b) = false) xs := by
  induction xs with
  | nil => exact List.chain'_nil
  | cons x xs ih =>
      rw [List.map_cons, List.nodup_cons] at hnd
      cases xs with
      | nil => exact List.chain'_singleton x
      | cons y ys =>
          rw [List.chain'_cons]
          refine ⟨?_, ih (fun a ha b hb => hEq a (by simp [ha]) b (by simp [hb]))
            hnd.2⟩
          rw [hEq x (by simp) y (by simp)]
          have hne : proj x ≠ proj y := by
            intro hc
            exact hnd.1 (hc ▸ List.mem_map_of_mem proj (by simp))
          simpa using hne

lemma updateElement_absent (node : Dict) (element : String) (m o : Dict)
    (hrep : REPEATABLE_ELEMENTS.contains element = true)
    (hget : dictGet node element = none) :
    updateElement node element m o
      = setKey node element (.vlist [.vdict (mergedEntry m o)]) := by
  unfold updateElement mergedEntry
  simp only [hrep, hget, if_true]

lemma countP_map_replace {α : Type} (P : α → Bool) (c : α) (hc : P c = true)
    (ys : List α) :
    (ys.map (fun x => if P x then c else x)).countP P = ys.countP P := by
  induction ys with
  | nil => rfl
  | cons y ys ih =>
      by_cases hy : P y = true <;>
        simp [List.countP_cons, hy, hc, ih]

lemma filter_map_replace {α : Type} (P : α → Bool) (c : α) (hc : P c = true)
    (ys : List α) (hcount : ys.countP P = 1) :
    (ys.map (fun x => if P x then c else x)).filter P = [c] := by
  induction ys with
  | nil => simp at hcount
  | cons y ys ih =>
      by_cases hy : P y = true
      · have h0 : ys.countP P = 0 := by
          rw [List.countP_cons_of_pos _ _ hy] at hcount
          omega
        have hnone := List.countP_eq_zero.mp h0
        have hmapid : ys.map (fun x => if P x then c else x) = ys := by
          have hpt : ∀ a ∈ ys, (if P a then c else a) = a := fun a ha => by
            simp [hnone a ha]
          rw [List.map_congr_left hpt]
          exact List.map_id ys
        have hfilter : ys.filter P = [] :=
          List.filter_eq_nil_iff.mpr (fun a ha => by simp [hnone a ha])
        simp [hy, hc, hmapid, hfilter]
      · have hcount' : ys.countP P = 1 := by
          rw [List.countP_cons_of_neg _ _ (by simpa using hy)] at hcount
          exact hcount
        simp [hy, ih hcount']

lemma countP_le_one_of_nodup_map {α : Type} (f : α → String) (P : α → Bool)
    (s0 : String) (hPf : ∀ e, P e = true → f e = s0) (xs : List α)
    (hnd : (xs.map f).Nodup) : xs.countP P ≤ 1 := by
  induction xs with
  | nil => simp
  | cons x xs ih =>
      rw [List.map_cons, List.nodup_cons] at hnd
      by_cases hPx : P x = true
      · have h0 : xs.countP P = 0 := by
          rw [List.countP_eq_zero]
          intro a ha hPa
          have : f a = f x := (hPf a hPa).trans (hPf x hPx).symm
          exact hnd.1 (this ▸ List.mem_map_of_mem f ha)
        rw [List.countP_cons_of_pos _ _ hPx, h0]
      · rw [List.countP_cons_of_neg _ _ (by simpa using hPx)]
        exact ih hnd.2

end VRT

namespace VRT

lemma metadataSub_domain (m : Dict) (s : String) :
    dictGet (metadataSubElement m (.vstr s)) "@domain" = some (.vstr s) := by
  by_cases hs : s = "" <;>
    simp [metadataSubElement, pyTruthy, hs, dictGet]

lemma metadata_key_of_sub (m : Dict) (s : String) :
    repeatKeyFunc "Metadata" (.vdict (metadataSubElement m (.vstr s))) = .vstr s := by
  simp [repeatKeyFunc, metadataSub_domain]

lemma pyMem_metadataValues (v : PyVal) (hv : isStr v = true) (m : Dict) (s : String) :
    pyMem v (dictValues (metadataSubElement m (.vstr s)))
      = pyEq v (.vstr s) := by
  obtain ⟨t, rfl⟩ := isStr_exists v hv
  by_cases hs : s = "" <;>
    simp [metadataSubElement, dictValues, pyTruthy, hs]

/-- One metadata insertion into a wellformed stored list: the entry with
the same domain (if any) is replaced in place, otherwise the new entry is
appended. -/
lemma metadata_update_spec (node : Dict) (m : Dict) (s : String) (xs : List PyVal)
    (hget : dictGet node "Metadata" = some (.vlist xs))
    (hwf : metadataWF xs) :
    updateElement node "Metadata" (metadataSubElement m (.vstr s)) [] =
      setKey node "Metadata" (.vlist
        (if xs.any (fun e => pyEq (repeatKeyFunc "Metadata" e) (.vstr s)) then
          xs.map (fun e =>
            if pyEq (repeatKeyFunc "Metadata" e) (.vstr s)
            then .vdict (metadataSubElement m (.vstr s)) else e)
        else xs ++ [.vdict (metadataSubElement m (.vstr s))])) := by
  have hEq : ∀ a ∈ xs, ∀ b ∈ xs,
      pyEq (repeatKeyFunc "Metadata" a) (repeatKeyFunc "Metadata" b)
        = (asStr (repeatKeyFunc "Metadata" a) == asStr (repeatKeyFunc "Metadata" b)) := by
    intro a ha b hb
    obtain ⟨ta, hta⟩ := isStr_exists _ (hwf.1 a ha)
    obtain ⟨tb, htb⟩ := isStr_exists _ (hwf.1 b hb)
    rw [hta, htb]
    simp [asStr]
  have hchain := chain_distinct_of_nodup_proj (repeatKeyFunc "Metadata")
    (fun e => asStr (repeatKeyFunc "Metadata" e)) xs hEq hwf.2
  rw [updateElement_repeatable node "Metadata" (metadataSubElement m (.vstr s)) []
    xs (by decide) hget hchain]
  simp only [mergedEntry_nil]
  have hpm : ∀ e ∈ xs,
      pyMem (repeatKeyFunc "Metadata" e)
          (dictValues (metadataSubElement m (.vstr s)))
        = pyEq (repeatKeyFunc "Metadata" e) (.vstr s) := fun e he =>
    pyMem_metadataValues _ (hwf.1 e he) m s
  rw [any_congr_mem xs _ _ hpm]
  by_cases hA : xs.any (fun e => pyEq (repeatKeyFunc "Metadata" e) (.vstr s)) = true
  · simp only [hA, if_true]
    congr 2
    exact List.map_congr_left (fun e he => by rw [hpm e he])
  · simp only [Bool.not_eq_true] at hA
    simp only [hA, Bool.false_eq_true, if_false]

lemma add_metadata_root (vrt : Dict) (m : Dict) (s : String) :
    add_metadata vrt (.vdict m) (.vstr s) .vnone =
      (updateElement vrt "Metadata" (metadataSubElement m (.vstr s)) [], none) := by
  simp [add_metadata, pyTruthy, isStr]

end VRT

namespace VRT

lemma metadata_P_to_D (s : String) (e : PyVal)
    (h : pyEq (repeatKeyFunc "Metadata" e) (.vstr s) = true) :
    asStr (repeatKeyFunc "Metadata" e) = s := by
  rcases hk : repeatKeyFunc "Metadata" e with _ | b | n | q | t | l | d <;>
    simp_all [pyEq, pyNum?, asStr]

lemma metadata_D_to_P (s : String) (e : PyVal)
    (hstr : isStr (repeatKeyFunc "Metadata" e) = true)
    (h : asStr (repeatKeyFunc "Metadata" e) = s) :
    pyEq (repeatKeyFunc "Metadata" e) (.vstr s) = true := by
  obtain ⟨t, ht⟩ := isStr_exists _ hstr
  rw [ht] at h ⊢
  simp [asStr] at h
  simp [h]

lemma metadata_P_sub (m : Dict) (s : String) :
    pyEq (repeatKeyFunc "Metadata" (.vdict (metadataSubElement m (.vstr s))))
      (.vstr s) = true := by
  rw [metadata_key_of_sub]
  simp

/-- The first `add_metadata` call on a wellformed document: it succeeds and
afterwards the Metadata list is wellformed and holds exactly one entry for
the written domain. -/
lemma metadata_first_call (vrt : Dict) (m1 : Dict) (s : String)
    (hwf : dictGet vrt "Metadata" = none ∨
      ∃ xs, dictGet vrt "Metadata" = some (.vlist xs) ∧ metadataWF xs) :
    (add_metadata vrt (.vdict m1) (.vstr s) .vnone).2 = none ∧
    ∃ ys1, dictGet (add_metadata vrt (.vdict m1) (.vstr s) .vnone).1 "Metadata"
        = some (.vlist ys1) ∧
      metadataWF ys1 ∧
      ys1.countP (fun e => pyEq (repeatKeyFunc "Metadata" e) (.vstr s)) = 1 ∧
      (∀ xs, dictGet vrt "Metadata" = some (.vlist xs) →
        (ys1.length = xs.length ∨ ys1.length = xs.length + 1)) := by
  rw [add_metadata_root]
  rcases hwf with hnone | ⟨xs, hget, hwfxs⟩
  · rw [updateElement_absent vrt "Metadata" _ _ (by decide) hnone]
    refine ⟨rfl, [.vdict (metadataSubElement m1 (.vstr s))],
      dictGet_setKey_self vrt "Metadata" _, ⟨?_, by simp⟩, ?_, ?_⟩
    · intro e he
      simp only [List.mem_singleton] at he
      subst he
      rw [metadata_key_of_sub]
      rfl
    · simp [List.countP_cons, metadata_P_sub]
    · intro xs hxs
      rw [hnone] at hxs
      exact absurd hxs (by simp)
  · rw [metadata_update_spec vrt m1 s xs hget hwfxs]
    by_cases hA : xs.any
        (fun e => pyEq (repeatKeyFunc "Metadata" e) (.vstr s)) = true
    · simp only [hA, if_true]
      refine ⟨by trivial, _, dictGet_setKey_self vrt "Metadata" _, ⟨?_, ?_⟩, ?_, ?_⟩
      · intro e' he'
        rw [List.mem_map] at he'
        obtain ⟨e, he, rfl⟩ := he'
        by_cases hPe : pyEq (repeatKeyFunc "Metadata" e) (.vstr s) = true
        · simp only [hPe, if_true]
          rw [metadata_key_of_sub]
          rfl
        · rw [if_neg hPe]
          exact hwfxs.1 e he
      · have hD1 : (List.map (fun e =>
            if pyEq (repeatKeyFunc "Metadata" e) (.vstr s)
            then PyVal.vdict (metadataSubElement m1 (.vstr s)) else e) xs).map
              (fun e => asStr (repeatKeyFunc "Metadata" e))
            = xs.map (fun e => asStr (repeatKeyFunc "Metadata" e)) := by
          rw [List.map_map]
          refine List.map_congr_left (fun e he => ?_)
          by_cases hPe : pyEq (repeatKeyFunc "Metadata" e) (.vstr s) = true
          · simp only [Function.comp, hPe, if_true]
            rw [metadata_key_of_sub, metadata_P_to_D s e hPe]
            rfl
          · simp [Function.comp, hPe]
        rw [hD1]
        exact hwfxs.2
      · rw [countP_map_replace
          (fun e => pyEq (repeatKeyFunc "Metadata" e) (.vstr s))
          (.vdict (metadataSubElement m1 (.vstr s))) (metadata_P_sub m1 s) xs]
        have hle := countP_le_one_of_nodup_map
          (fun e => asStr (repeatKeyFunc "Metadata" e))
          (fun e => pyEq (repeatKeyFunc "Metadata" e) (.vstr s)) s
          (fun e => metadata_P_to_D s e) xs hwfxs.2
        obtain ⟨a, ha, hPa⟩ := List.any_eq_true.mp hA
        have hpos : 0 < xs.countP
            (fun e => pyEq (repeatKeyFunc "Metadata" e) (.vstr s)) :=
          List.countP_pos_iff.mpr ⟨a, ha, hPa⟩
        omega
      · intro xs' hxs'
        rw [hget] at hxs'
        simp only [Option.some.injEq, PyVal.vlist.injEq] at hxs'
        subst hxs'
        left
        exact List.length_map _ _
    · simp only [Bool.not_eq_true] at hA
      simp only [hA, Bool.false_eq_true, if_false]
      refine ⟨by trivial, _, dictGet_setKey_self vrt "Metadata" _, ⟨?_, ?_⟩, ?_, ?_⟩
      · intro e' he'
        rw [List.mem_append] at he'
        rcases he' with he | he
        · exact hwfxs.1 e' he
        · simp only [List.mem_singleton] at he
          subst he
          rw [metadata_key_of_sub]
          rfl
      · rw [List.map_append]
        refine List.Nodup.append hwfxs.2 (by simp) ?_
        intro a ha hb
        simp only [List.map_cons, List.map_nil, List.mem_singleton] at hb
        rw [List.mem_map] at ha
        obtain ⟨e, he, rfl⟩ := ha
        rw [metadata_key_of_sub] at hb
        simp only [asStr] at hb
        have hPe : pyEq (repeatKeyFunc "Metadata" e) (.vstr s) = true :=
          metadata_D_to_P s e (hwfxs.1 e he) hb
        have := List.any_eq_false.mp (by rw [hA]) e he
        simp [hPe] at this
      · rw [List.countP_append]
        have h0 : xs.countP
            (fun e => pyEq (repeatKeyFunc "Metadata" e) (.vstr s)) = 0 := by
          rw [List.countP_eq_zero]
          intro a ha
          have := List.any_eq_false.mp (by rw [hA]) a ha
          simpa using this
        simp [h0, List.countP_cons, metadata_P_sub]
      · intro xs' hxs'
        rw [hget] at hxs'
        simp only [Option.some.injEq, PyVal.vlist.injEq] at hxs'
        subst hxs'
        right
        simp

end VRT

namespace VRT

/-- The second `add_metadata` call for the same domain: it replaces the
unique existing entry for that domain in place, so the list keeps its
length and the unique entry for the domain afterwards is the new one. -/
lemma metadata_second_call (node1 : Dict) (m2 : Dict) (s : String)
    (ys1 : List PyVal)
    (hget1 : dictGet node1 "Metadata" = some (.vlist ys1))
    (hwf1 : metadataWF ys1)
    (hcnt : ys1.countP (fun e => pyEq (repeatKeyFunc "Metadata" e) (.vstr s)) = 1) :
    (add_metadata node1 (.vdict m2) (.vstr s) .vnone).2 = none ∧
    ∃ ys2, dictGet (add_metadata node1 (.vdict m2) (.vstr s) .vnone).1 "Metadata"
        = some (.vlist ys2) ∧
      ys2.length = ys1.length ∧
      ys2.filter (fun e => pyEq (repeatKeyFunc "Metadata" e) (.vstr s))
        = [.vdict (metadataSubElement m2 (.vstr s))] := by
  have hany : ys1.any (fun e => pyEq (repeatKeyFunc "Metadata" e) (.vstr s)) = true := by
    obtain ⟨a, ha, hPa⟩ := List.countP_pos_iff.mp (by omega : 0 < ys1.countP
      (fun e => pyEq (repeatKeyFunc "Metadata" e) (.vstr s)))
    exact List.any_eq_true.mpr ⟨a, ha, hPa⟩
  rw [add_metadata_root]
  rw [metadata_update_spec node1 m2 s ys1 hget1 hwf1]
  simp only [hany, if_true]
  refine ⟨by trivial, _, dictGet_setKey_self node1 "Metadata" _,
    List.length_map _ _, ?_⟩
  exact filter_map_replace
    (fun e => pyEq (repeatKeyFunc "Metadata" e) (.vstr s))
    (.vdict (metadataSubElement m2 (.vstr s))) (metadata_P_sub m2 s) ys1 hcnt

/-- C4: for every domain string `d` and metadata mappings `m1`, `m2`,
calling `add_metadata(m1, domain=d)` and then `add_metadata(m2, domain=d)`
(on a document whose stored Metadata list, if any, is wellformed: string
domains, pairwise distinct) succeeds, leaves exactly one entry for domain
`d` in the Metadata sequence — the entry built from the latest call `m2` —
and the second call replaces rather than appends: the sequence length after
the second call equals the length after the first (in particular it stays 1
when it was 1). -/
theorem C4_metadata_domain_replace (vrt : Dict) (m1 m2 : Dict) (s : String)
    (hwf : dictGet vrt "Metadata" = none ∨
      ∃ xs, dictGet vrt "Metadata" = some (.vlist xs) ∧ metadataWF xs) :
    (add_metadata vrt (.vdict m1) (.vstr s) .vnone).2 = none ∧
    (add_metadata (add_metadata vrt (.vdict m1) (.vstr s) .vnone).1
      (.vdict m2) (.vstr s) .vnone).2 = none ∧
    ∃ ys1 ys2,
      dictGet (add_metadata vrt (.vdict m1) (.vstr s) .vnone).1 "Metadata"
        = some (.vlist ys1) ∧
      dictGet (add_metadata (add_metadata vrt (.vdict m1) (.vstr s) .vnone).1
          (.vdict m2) (.vstr s) .vnone).1 "Metadata"
        = some (.vlist ys2) ∧
      ys2.length = ys1.length ∧
      ys2.filter (fun e => pyEq (repeatKeyFunc "Metadata" e) (.vstr s))
        = [.vdict (metadataSubElement m2 (.vstr s))] ∧
      ys2.countP (fun e => pyEq (repeatKeyFunc "Metadata" e) (.vstr s)) = 1 := by
  obtain ⟨h1none, ys1, hget1, hwf1, hcnt1, _hlen⟩ := metadata_first_call vrt m1 s hwf
  obtain ⟨h2none, ys2, hget2, hlen2, hfil2⟩ :=
    metadata_second_call _ m2 s ys1 hget1 hwf1 hcnt1
  refine ⟨h1none, h2none, ys1, ys2, hget1, hget2, hlen2, hfil2, ?_⟩
  rw [List.countP_eq_length_filter, hfil2]
  rfl

/-- C4 witness: two metadata calls for domain "d" on the empty document
leave a single entry whose content comes from the second call. -/
theorem C4_witness :
    (add_metadata [] (.vdict [("a", .vstr "1")]) (.vstr "d") .vnone).2 = none ∧
    (add_metadata (add_metadata [] (.vdict [("a", .vstr "1")]) (.vstr "d") .vnone).1
      (.vdict [("b", .vstr "2")]) (.vstr "d") .vnone).2 = none ∧
    ∃ ys1 ys2,
      dictGet (add_metadata [] (.vdict [("a", .vstr "1")]) (.vstr "d") .vnone).1
        "Metadata" = some (.vlist ys1) ∧
      dictGet (add_metadata
          (add_metadata [] (.vdict [("a", .vstr "1")]) (.vstr "d") .vnone).1
          (.vdict [("b", .vstr "2")]) (.vstr "d") .vnone).1 "Metadata"
        = some (.vlist ys2) ∧
      ys2.length = ys1.length ∧
      ys2.filter (fun e => pyEq (repeatKeyFunc "Metadata" e) (.vstr "d"))
        = [.vdict (metadataSubElement [("b", .vstr "2")] (.vstr "d"))] ∧
      ys2.countP (fun e => pyEq (repeatKeyFunc "Metadata" e) (.vstr "d")) = 1 :=
  C4_metadata_domain_replace [] [("a", .vstr "1")] [("b", .vstr "2")] "d"
    (Or.inl rfl)

end VRT

namespace VRT

lemma pyEq_keydict (t u : String) :
    pyEq (.vdict [("$", .vstr t)]) (.vdict [("$", .vstr u)]) = (t == u) := by
  simp [pyEq_vdict_vdict, pyEqDict]

lemma pyMem_sourceValues (t : String)
    (sf sb a1 a2 a3 a4 a5 s1 s2 s3 s4 d1 d2 d3 d4 rel sh : PyVal) :
    pyMem (.vdict [("$", .vstr t)])
      (dictValues (sourceSubElement sf sb a1 a2 a3 a4 a5 s1 s2 s3 s4
        d1 d2 d3 d4 rel sh))
      = (t == pyStr sb) := by
  by_cases hP : (pyTruthy a1 || pyTruthy a2 || pyTruthy a4
      || pyTruthy a5 || pyTruthy a3) = true <;>
  by_cases hS : (pyTruthy s1 || pyTruthy s2 || pyTruthy s3
      || pyTruthy s4) = true <;>
  by_cases hD : (pyTruthy d1 || pyTruthy d2 || pyTruthy d3
      || pyTruthy d4) = true <;>
    simp [sourceSubElement, hP, hS, hD, dictUpdate, dictValues, pyMem,
      setKey, pyEq_vdict_vdict, pyEqDict]

lemma srcKey_of_sub (sf sb a1 a2 a3 a4 a5 s1 s2 s3 s4 d1 d2 d3 d4 rel sh : PyVal) :
    repeatKeyFunc "SimpleSource"
        (.vdict (sourceSubElement sf sb a1 a2 a3 a4 a5 s1 s2 s3 s4
          d1 d2 d3 d4 rel sh))
      = .vdict [("$", .vstr (pyStr sb))] := by
  by_cases hP : (pyTruthy a1 || pyTruthy a2 || pyTruthy a4
      || pyTruthy a5 || pyTruthy a3) = true <;>
  by_cases hS : (pyTruthy s1 || pyTruthy s2 || pyTruthy s3
      || pyTruthy s4) = true <;>
  by_cases hD : (pyTruthy d1 || pyTruthy d2 || pyTruthy d3
      || pyTruthy d4) = true <;>
    simp [sourceSubElement, hP, hS, hD, dictUpdate, setKey, repeatKeyFunc,
      dictGet]

/-- C2 amended: the merge key for source entries is the source band alone,
not the (filename, band) pair: on a band whose stored sources all carry
string band keys, pairwise distinct, re-adding a source whose
`str(source_band)` matches an existing entry replaces that entry in place
at its original ordinal position — regardless of the filenames — and a
source with a new band string is appended at the end. -/
theorem C2_amended_source_merge_key (vrt : Dict) (i : Nat) (band sf sb : PyVal)
    (a1 a2 a3 a4 a5 s1 s2 s3 s4 d1 d2 d3 d4 rel sh : PyVal)
    (xs : List PyVal) (eb : Dict) (ss : List PyVal)
    (hfind : get_band_element vrt band = .ok i)
    (hb : dictGet vrt "VRTRasterBand" = some (.vlist xs))
    (he : xs.get? i = some (.vdict eb))
    (hs : dictGet eb "SimpleSource" = some (.vlist ss))
    (hshape : ∀ e ∈ ss, ∃ t,
      repeatKeyFunc "SimpleSource" e = .vdict [("$", .vstr t)])
    (hnd : (ss.map srcKeyStr).Nodup) :
    (add_source vrt band sf sb "Simple" a1 a2 a3 a4 a5 s1 s2 s3 s4
      d1 d2 d3 d4 rel sh .vnone).2 = none ∧
    bandSources (add_source vrt band sf sb "Simple" a1 a2 a3 a4 a5
        s1 s2 s3 s4 d1 d2 d3 d4 rel sh .vnone).1 i =
      some (if ss.any (fun e => pyEq (repeatKeyFunc "SimpleSource" e)
              (.vdict [("$", .vstr (pyStr sb))])) then
          ss.map (fun e =>
            if pyEq (repeatKeyFunc "SimpleSource" e)
                (.vdict [("$", .vstr (pyStr sb))]) then
              .vdict (sourceSubElement sf sb a1 a2 a3 a4 a5 s1 s2 s3 s4
                d1 d2 d3 d4 rel sh)
            else e)
        else ss ++ [.vdict (sourceSubElement sf sb a1 a2 a3 a4 a5
          s1 s2 s3 s4 d1 d2 d3 d4 rel sh)]) := by
  have hSS : ("Simple" ++ "Source" : String) = "SimpleSource" := rfl
  have hr : add_source vrt band sf sb "Simple" a1 a2 a3 a4 a5 s1 s2 s3 s4
      d1 d2 d3 d4 rel sh .vnone =
      (updateBandChild vrt i "SimpleSource"
        (sourceSubElement sf sb a1 a2 a3 a4 a5 s1 s2 s3 s4 d1 d2 d3 d4 rel sh)
        [], none) := by
    unfold add_source
    rw [hfind]
    simp [sourceOpenOptions, pyTruthy, hSS]
  have hEq : ∀ a ∈ ss, ∀ b ∈ ss,
      pyEq (repeatKeyFunc "SimpleSource" a) (repeatKeyFunc "SimpleSource" b)
        = (srcKeyStr a == srcKeyStr b) := by
    intro a ha b hb'
    obtain ⟨ta, hta⟩ := hshape a ha
    obtain ⟨tb, htb⟩ := hshape b hb'
    rw [hta, htb, pyEq_keydict]
    simp [srcKeyStr, hta, htb]
  have hchain := chain_distinct_of_nodup_proj (repeatKeyFunc "SimpleSource")
    srcKeyStr ss hEq hnd
  have hupd := updateElement_repeatable eb "SimpleSource"
    (sourceSubElement sf sb a1 a2 a3 a4 a5 s1 s2 s3 s4 d1 d2 d3 d4 rel sh)
    [] ss (by decide) hs hchain
  have hpm : ∀ e ∈ ss,
      pyMem (repeatKeyFunc "SimpleSource" e)
          (dictValues (sourceSubElement sf sb a1 a2 a3 a4 a5 s1 s2 s3 s4
            d1 d2 d3 d4 rel sh))
        = pyEq (repeatKeyFunc "SimpleSource" e)
            (.vdict [("$", .vstr (pyStr sb))]) := by
    intro e he'
    obtain ⟨t, ht⟩ := hshape e he'
    rw [ht, pyMem_sourceValues, pyEq_keydict]
  have hany : ss.any (fun x => pyMem (repeatKeyFunc "SimpleSource" x)
        (dictValues (sourceSubElement sf sb a1 a2 a3 a4 a5 s1 s2 s3 s4
          d1 d2 d3 d4 rel sh)))
      = ss.any (fun x => pyEq (repeatKeyFunc "SimpleSource" x)
        (.vdict [("$", .vstr (pyStr sb))])) :=
    any_congr_mem ss _ _ hpm
  have hmapf : ss.map (fun x =>
        if pyMem (repeatKeyFunc "SimpleSource" x)
            (dictValues (sourceSubElement sf sb a1 a2 a3 a4 a5 s1 s2 s3 s4
              d1 d2 d3 d4 rel sh)) then
          .vdict (sourceSubElement sf sb a1 a2 a3 a4 a5 s1 s2 s3 s4
            d1 d2 d3 d4 rel sh)
        else x)
      = ss.map (fun x =>
        if pyEq (repeatKeyFunc "SimpleSource" x)
            (.vdict [("$", .vstr (pyStr sb))]) then
          .vdict (sourceSubElement sf sb a1 a2 a3 a4 a5 s1 s2 s3 s4
            d1 d2 d3 d4 rel sh)
        else x) :=
    List.map_congr_left (fun e he' => by rw [hpm e he'])
  have hlt : i < xs.length := by
    by_contra hge
    rw [List.get?_eq_none.mpr (by omega)] at he
    exact Option.noConfusion he
  refine ⟨by rw [hr], ?_⟩
  rw [hr]
  unfold updateBandChild bandSources
  simp only [hb, he, hupd, mergedEntry_nil, hany, hmapf, dictGet_setKey_self]
  rw [List.get?_set_eq_of_lt _ hlt]
  simp only [dictGet_setKey_self]

/-- C2 amended, witness: on a band holding the two sources ("a.tif", 1)
and ("c.tif", 2), re-adding with source band 1 and filename "b.tif" hits
the replace branch of the amended rule. -/
theorem C2_amended_witness :
    (add_source
      [("VRTRasterBand", .vlist [.vdict
        [("@band", .vint 1), ("@dataType", .vstr "Byte"),
         ("SimpleSource", .vlist
           [.vdict
             [("SourceFilename", .vdict
                [("@relativeToVRT", .vint 0), ("@shared", .vstr "1"),
                 ("$", .vstr "a.tif")]),
              ("SourceBand", .vdict [("$", .vstr "1")])],
            .vdict
             [("SourceFilename", .vdict
                [("@relativeToVRT", .vint 0), ("@shared", .vstr "1"),
                 ("$", .vstr "c.tif")]),
              ("SourceBand", .vdict [("$", .vstr "2")])]])]])]
      (.vint 1) (.vstr "b.tif") (.vint 1) "Simple"
      .vnone .vnone .vnone .vnone .vnone .vnone .vnone .vnone .vnone
      .vnone .vnone .vnone .vnone (.vbool false) (.vbool true) .vnone).2
      = none :=
  (C2_amended_source_merge_key
    [("VRTRasterBand", .vlist [.vdict
        [("@band", .vint 1), ("@dataType", .vstr "Byte"),
         ("SimpleSource", .vlist
           [.vdict
             [("SourceFilename", .vdict
                [("@relativeToVRT", .vint 0), ("@shared", .vstr "1"),
                 ("$", .vstr "a.tif")]),
              ("SourceBand", .vdict [("$", .vstr "1")])],
            .vdict
             [("SourceFilename", .vdict
                [("@relativeToVRT", .vint 0), ("@shared", .vstr "1"),
                 ("$", .vstr "c.tif")]),
              ("SourceBand", .vdict [("$", .vstr "2")])]])]])]
    0 (.vint 1) (.vstr "b.tif") (.vint 1)
    .vnone .vnone .vnone .vnone .vnone .vnone .vnone .vnone .vnone
    .vnone .vnone .vnone .vnone (.vbool false) (.vbool true)
    [.vdict
      [("@band", .vint 1), ("@dataType", .vstr "Byte"),
         ("SimpleSource", .vlist
           [.vdict
             [("SourceFilename", .vdict
                [("@relativeToVRT", .vint 0), ("@shared", .vstr "1"),
                 ("$", .vstr "a.tif")]),
              ("SourceBand", .vdict [("$", .vstr "1")])],
            .vdict
             [("SourceFilename", .vdict
                [("@relativeToVRT", .vint 0), ("@shared", .vstr "1"),
                 ("$", .vstr "c.tif")]),
              ("SourceBand", .vdict [("$", .vstr "2")])]])]]
    [("@band", .vint 1), ("@dataType", .vstr "Byte"),
         ("SimpleSource", .vlist
           [.vdict
             [("SourceFilename", .vdict
                [("@relativeToVRT", .vint 0), ("@shared", .vstr "1"),
                 ("$", .vstr "a.tif")]),
              ("SourceBand", .vdict [("$", .vstr "1")])],
            .vdict
             [("SourceFilename", .vdict
                [("@relativeToVRT", .vint 0), ("@shared", .vstr "1"),
                 ("$", .vstr "c.tif")]),
              ("SourceBand", .vdict [("$", .vstr "2")])]])]
    [.vdict
             [("SourceFilename", .vdict
                [("@relativeToVRT", .vint 0), ("@shared", .vstr "1"),
                 ("$", .vstr "a.tif")]),
              ("SourceBand", .vdict [("$", .vstr "1")])],
     .vdict
             [("SourceFilename", .vdict
                [("@relativeToVRT", .vint 0), ("@shared", .vstr "1"),
                 ("$", .vstr "c.tif")]),
              ("SourceBand", .vdict [("$", .vstr "2")])]]
    rfl rfl rfl rfl
    (by
      intro e he
      simp only [List.mem_cons, List.mem_singleton, List.not_mem_nil,
        or_false] at he
      rcases he with he | he <;> subst he
      · exact ⟨"1", rfl⟩
      · exact ⟨"2", rfl⟩)
    (by decide)).1

end VRT
